import Mathlib

/-!
Verification of the WordClock firmware core (word encoder, time-adjust button
state machine, RTC synchronization policy) against its natural-language
specification.  All definitions are shallow embeddings of the C source in
`WordClock.ino`: machine `uint32_t` / `unsigned long` arithmetic is modelled
as `Nat` with explicit reduction modulo `2^32` wherever the C code can wrap,
and `uint8_t` values as `Nat` with explicit `% 256` where overflow matters.
-/

namespace WordClock

/-! ## Tuneable software constants (from the `#define` block) -/

def BUTTON_DEBOUNCE_MS : Nat := 50

def BUTTON_HOLD_ACTION_REPEAT_PERIOD : Nat := 1000

def BUTTON_INACTION_RTC_UPDATE_DELAY : Nat := 5000

def RTC_QUERY_PERIOD_MILLIS : Nat := 5000

def MS_PER_SECOND : Nat := 1000

def RTC_RESET_YEAR : Nat := 2017

def RTC_RESET_MONTH : Nat := 1

def RTC_RESET_DAY : Nat := 1

def RTC_RESET_HOUR : Nat := 0

def RTC_RESET_MINUTE : Nat := 0

def RTC_RESET_SECOND : Nat := 0

/-- Modulus of the 32-bit `unsigned long` millisecond counter (`millis()`). -/
def UINT32_MOD : Nat := 4294967296

/-! ## Word bit positions (`word_bit_map` enum) -/

/-- The `word_bit_map` enumeration: every word the clock can display. -/
inductive word_bit_map where
  | TEN_M
  | HALF_M
  | QUARTER_M
  | TWENTY_M
  | FIVE_M
  | MINUTES
  | PAST
  | TO
  | ONE_H
  | TWO_H
  | THREE_H
  | FOUR_H
  | FIVE_H
  | SIX_H
  | SEVEN_H
  | EIGHT_H
  | NINE_H
  | TEN_H
  | ELEVEN_H
  | TWELVE_H
  | OCLOCK
deriving DecidableEq

open word_bit_map

/-- Numeric bit position of each word, exactly as assigned by the enum. -/
def wordBit : word_bit_map → Nat
  | TEN_M => 20
  | HALF_M => 19
  | QUARTER_M => 18
  | TWENTY_M => 17
  | FIVE_M => 16
  | MINUTES => 15
  | PAST => 14
  | TO => 13
  | ONE_H => 12
  | TWO_H => 11
  | THREE_H => 10
  | FOUR_H => 9
  | FIVE_H => 8
  | SIX_H => 7
  | SEVEN_H => 6
  | EIGHT_H => 5
  | NINE_H => 4
  | TEN_H => 3
  | ELEVEN_H => 2
  | TWELVE_H => 1
  | OCLOCK => 0

/-- Source `enableWord`: raise the word's bit in the local word register
(`localWordRegister |= ((uint32_t) 0x01) << theWord`; the result stays
below `2^32` because every bit position is at most 20). -/
def enableWord (reg : Nat) (theWord : word_bit_map) : Nat :=
  reg ||| (1 <<< wordBit theWord)

/-- Source `disableAllWords`: clear the local word register. -/
def disableAllWords : Nat := 0

/-- Whether a word's bit is set in a register value. -/
def wordEnabled (reg : Nat) (theWord : word_bit_map) : Bool :=
  Nat.testBit reg (wordBit theWord)

/-- Source `updateLocalWordRegister(hour, minute)`: the time→word encoder, translated
branch by branch from the source.  Returns the register value it leaves in
`localWordRegister`. -/
def updateLocalWordRegister (hour minute : Nat) : Nat :=
  let reg := disableAllWords
  -- Convert 24-hour time to 12-hour time
  let hour := if hour > 12 then hour - 12 else hour
  let hour := if hour = 0 then 12 else hour
  -- Handle the "minute" part of the time
  let reg :=
    if minute < 5 then enableWord reg OCLOCK
    else if minute ≥ 5 ∧ minute < 10 then enableWord reg FIVE_M
    else if minute ≥ 10 ∧ minute < 15 then enableWord reg TEN_M
    else if minute ≥ 15 ∧ minute < 20 then enableWord reg QUARTER_M
    else if minute ≥ 20 ∧ minute < 25 then enableWord reg TWENTY_M
    else if minute ≥ 25 ∧ minute < 30 then enableWord (enableWord reg TWENTY_M) FIVE_M
    else if minute ≥ 30 ∧ minute < 35 then enableWord reg HALF_M
    else if minute ≥ 35 ∧ minute < 40 then enableWord (enableWord reg TWENTY_M) FIVE_M
    else if minute ≥ 40 ∧ minute < 45 then enableWord reg TWENTY_M
    else if minute ≥ 45 ∧ minute < 50 then enableWord reg QUARTER_M
    else if minute ≥ 50 ∧ minute < 55 then enableWord reg TEN_M
    else if minute ≥ 55 then enableWord reg FIVE_M
    else reg
  -- Handle the "hour" part of the time
  if minute < 35 then
    let reg := if minute ≥ 5 then enableWord reg PAST else reg
    match hour with
    | 1 => enableWord reg ONE_H
    | 2 => enableWord reg TWO_H
    | 3 => enableWord reg THREE_H
    | 4 => enableWord reg FOUR_H
    | 5 => enableWord reg FIVE_H
    | 6 => enableWord reg SIX_H
    | 7 => enableWord reg SEVEN_H
    | 8 => enableWord reg EIGHT_H
    | 9 => enableWord reg NINE_H
    | 10 => enableWord reg TEN_H
    | 11 => enableWord reg ELEVEN_H
    | 12 => enableWord reg TWELVE_H
    | _ => reg
  else
    let reg := enableWord reg TO
    match hour with
    | 1 => enableWord reg TWO_H
    | 2 => enableWord reg THREE_H
    | 3 => enableWord reg FOUR_H
    | 4 => enableWord reg FIVE_H
    | 5 => enableWord reg SIX_H
    | 6 => enableWord reg SEVEN_H
    | 7 => enableWord reg EIGHT_H
    | 8 => enableWord reg NINE_H
    | 9 => enableWord reg TEN_H
    | 10 => enableWord reg ELEVEN_H
    | 11 => enableWord reg TWELVE_H
    | 12 => enableWord reg ONE_H
    | _ => reg

/-- The twelve hour words. -/
def hourWordList : List word_bit_map :=
  [ONE_H, TWO_H, THREE_H, FOUR_H, FIVE_H, SIX_H,
   SEVEN_H, EIGHT_H, NINE_H, TEN_H, ELEVEN_H, TWELVE_H]

/-- The minute-phrase words (including the never-used MINUTES filler word). -/
def minuteWordList : List word_bit_map :=
  [FIVE_M, TEN_M, QUARTER_M, TWENTY_M, HALF_M, MINUTES]

/-- How many of the twelve hour words are enabled in a register value. -/
def countHourWords (reg : Nat) : Nat :=
  (hourWordList.filter (fun w => wordEnabled reg w)).length

/-- Modelled from the spec: the spec's 12-hour normalization
`h = hour mod 12; if h == 0 then h = 12` (the source instead computes
`if (hour > 12) hour -= 12; if (hour == 0) hour = 12`, which agrees on
the valid range 0..23). -/
def specNorm12 (hour : Nat) : Nat :=
  if hour % 12 = 0 then 12 else hour % 12

/-- Successor on the 12-hour dial, wrapping 12 to 1. -/
def succ12 (h : Nat) : Nat :=
  if h = 12 then 1 else h + 1

/-- The hour word displayed for a 12-hour value in 1..12. -/
def hourWordFor : Nat → word_bit_map
  | 1 => ONE_H
  | 2 => TWO_H
  | 3 => THREE_H
  | 4 => FOUR_H
  | 5 => FIVE_H
  | 6 => SIX_H
  | 7 => SEVEN_H
  | 8 => EIGHT_H
  | 9 => NINE_H
  | 10 => TEN_H
  | 11 => ELEVEN_H
  | _ => TWELVE_H

/-! ## Time advancement (`advanceHour`, `advanceMinute`) -/

/-- Source `advanceHour`: add one, wrapping 23 (or anything above) to 0. -/
def advanceHour (hour : Nat) : Nat :=
  if hour < 23 then hour + 1 else 0

/-- Source `advanceMinute`: add one to the minute; on the 59→0 transition also
increment the hour (a bare `uint8_t` increment, reduced mod 256 — note it
does NOT reuse `advanceHour`, so the hour does not wrap at 23). -/
def advanceMinute (hour minute : Nat) : Nat × Nat :=
  if minute < 59 then (hour, minute + 1)
  else ((hour + 1) % 256, 0)

/-! ## 32-bit counter arithmetic and the four elapsed-time comparisons -/

/-- The `unsigned long` subtraction `a - b`, reduced mod `2^32` (for `a, b < 2^32`
this is exactly the C unsigned wraparound difference). -/
def sub32 (a b : Nat) : Nat := (a + UINT32_MOD - b) % UINT32_MOD

/-- The `unsigned long` addition, reduced mod `2^32`. -/
def add32 (a b : Nat) : Nat := (a + b) % UINT32_MOD

/-- The debounce-settling comparison
`(timeNow - lastButtonChange) > BUTTON_DEBOUNCE_MS`. -/
def debounceSettled (now lastChange : Nat) : Bool :=
  decide (BUTTON_DEBOUNCE_MS < sub32 now lastChange)

/-- The hold-repeat comparison `timeNow >= nextAdvanceTime`
(a direct comparison against a precomputed deadline, not a subtraction). -/
def repeatDue (now nextAdvance : Nat) : Bool :=
  decide (nextAdvance ≤ now)

/-- The RTC write-deadline comparison `timeNow > updateRTCTime`
(a direct comparison against a precomputed deadline, not a subtraction). -/
def writeDue (now deadline : Nat) : Bool :=
  decide (deadline < now)

/-- The RTC poll comparison
`(timeNow - lastRTCQueryTime) > RTC_QUERY_PERIOD_MILLIS`. -/
def pollDue (now lastQuery : Nat) : Bool :=
  decide (RTC_QUERY_PERIOD_MILLIS < sub32 now lastQuery)

/-! ## Per-button debounce / hold state machine -/

/-- The per-button static variables of `handleTimeAdjustButtons`.
`lastValue` is the raw pin level, `true` = HIGH (released, pulled up),
`false` = LOW (pressed). -/
structure ButtonState where
  lastChange : Nat
  lastValue : Bool
  beingHeld : Bool
  nextAdvance : Nat
deriving DecidableEq

/-- Boot values of the per-button statics
(`lastChange = 0`, `lastValue = HIGH`, `beingHeld = false`, `nextAdvance = 0`). -/
def initButton : ButtonState := ⟨0, true, false, 0⟩

/-- The debouncing bookkeeping at the top of `handleTimeAdjustButtons`:
record the change timestamp when the raw level differs from the last
sample, then store the new sample. -/
def debounceUpdate (s : ButtonState) (now : Nat) (value : Bool) : ButtonState :=
  { s with lastChange := if value ≠ s.lastValue then now else s.lastChange,
           lastValue := value }

/-- Result of one button's slice of `handleTimeAdjustButtons`: the new
button state, whether an advance event fired this tick, and whether it was
the initial (press-recognition) event as opposed to a hold-repeat. -/
structure BtnResult where
  st : ButtonState
  fired : Bool
  firstFire : Bool
deriving DecidableEq

/-- One button's slice of `handleTimeAdjustButtons` for one tick: debounce
bookkeeping, then — once the level has been stable for more than the
debounce interval — fire immediately on a newly recognised press
(active-low), or fire again each time the repeat deadline passes while
held; a settled HIGH level clears the held flag. -/
def buttonTick (s : ButtonState) (now : Nat) (value : Bool) : BtnResult :=
  let s1 := debounceUpdate s now value
  if debounceSettled now s1.lastChange then
    if value = false then
      if s1.beingHeld = false then
        ⟨{ s1 with beingHeld := true,
                   nextAdvance := add32 now BUTTON_HOLD_ACTION_REPEAT_PERIOD }, true, true⟩
      else if repeatDue now s1.nextAdvance then
        ⟨{ s1 with nextAdvance := add32 now BUTTON_HOLD_ACTION_REPEAT_PERIOD }, true, false⟩
      else ⟨s1, false, false⟩
    else ⟨{ s1 with beingHeld := false }, false, false⟩
  else ⟨s1, false, false⟩

/-- Run one button over a trace of `(millis, rawLevel)` samples, returning
the per-tick fired flags. -/
def buttonRunList (s : ButtonState) : List (Nat × Bool) → List Bool
  | [] => []
  | (now, v) :: rest =>
    (buttonTick s now v).fired :: buttonRunList (buttonTick s now v).st rest

/-- Total number of advance events a button fires over a trace. -/
def buttonRunFires (s : ButtonState) : List (Nat × Bool) → Nat
  | [] => 0
  | (now, v) :: rest =>
    (if (buttonTick s now v).fired then 1 else 0) + buttonRunFires (buttonTick s now v).st rest

/-- Specification-side bookkeeping for a raw-level trace: pair every sample
with the timestamp of the most recent level change (seeded by the state's
`lastChange`/`lastValue`).  Mirrors exactly what `debounceUpdate` tracks. -/
def lctList (lc : Nat) (pv : Bool) : List (Nat × Bool) → List (Nat × Nat)
  | [] => []
  | (now, v) :: rest =>
    (now, if v ≠ pv then now else lc) :: lctList (if v ≠ pv then now else lc) v rest

/-- A steadily pressed (LOW) button sampled on the 1 ms tick grid:
`m` ticks starting at time `t0 + i`. -/
def steadyFrom (t0 i m : Nat) : List (Nat × Bool) :=
  (List.range m).map (fun k => (t0 + i + k, false))

/-- Closed form of the button state after `i` ticks of the steady-LOW grid
trace starting at `t0` (from the boot state): the level change is recorded
at tick 0, the press is recognised at tick 51, and the repeat deadline then
advances by 1000 ms at each hold-repeat event. -/
def steadyStateAt (t0 i : Nat) : ButtonState :=
  if i = 0 then initButton
  else if i ≤ 51 then ⟨t0, false, false, 0⟩
  else ⟨t0, false, true, t0 + 51 + 1000 * ((i - 52) / 1000 + 1)⟩

/-! ## The whole-system model: globals, one `loop()` iteration, runs -/

/-- The value stored in the DS3231, as far as this firmware reads or writes
it (the `DateTime` fields used by `rtc.now()` / `rtc.adjust()`).  The chip
is modelled as a register that returns the last value written. -/
structure DateTimeVal where
  year : Nat
  month : Nat
  day : Nat
  hour : Nat
  minute : Nat
  second : Nat
deriving DecidableEq

/-- The fixed reset epoch 2017-01-01T00:00:00. -/
def RTC_RESET_DATETIME : DateTimeVal :=
  ⟨RTC_RESET_YEAR, RTC_RESET_MONTH, RTC_RESET_DAY,
   RTC_RESET_HOUR, RTC_RESET_MINUTE, RTC_RESET_SECOND⟩

/-- All mutable global state of the sketch (plus the modelled RTC register).
Both `millis()` samples taken within one `loop()` iteration are modelled as
the same tick timestamp. -/
structure SysState where
  currentHour : Nat
  currentMinute : Nat
  currentSecond : Nat
  lastRTCQueryTime : Nat
  timeLocallyUpdated : Bool
  localWordRegister : Nat
  hourBtn : ButtonState
  minuteBtn : ButtonState
  updateRTCTime : Nat
  rtc : DateTimeVal
deriving DecidableEq

/-- Observable I/O of one `loop()` iteration: number of advance events,
the value passed to `rtc.adjust` (if any), whether the canonical time was
replaced from the RTC by the periodic poll, and how many `rtc.now()` reads
happened (the write-back path performs one to fetch the date fields). -/
structure TickOut where
  advances : Nat
  wrote : Option DateTimeVal
  readCanonical : Bool
  rtcReads : Nat
deriving DecidableEq

/-- Effect of the hour button's slice on the globals: on a fired event,
advance the hour, zero the seconds, mark the pending local update on a
press-recognition event, re-arm the RTC write deadline and re-render. -/
def applyHourFire (s : SysState) (now : Nat) (r : BtnResult) : SysState :=
  if r.fired then
    { s with hourBtn := r.st,
             currentHour := advanceHour s.currentHour,
             currentSecond := 0,
             timeLocallyUpdated := if r.firstFire then true else s.timeLocallyUpdated,
             updateRTCTime := add32 now BUTTON_INACTION_RTC_UPDATE_DELAY,
             localWordRegister :=
               updateLocalWordRegister (advanceHour s.currentHour) s.currentMinute }
  else { s with hourBtn := r.st }

/-- Effect of the minute button's slice on the globals (as `applyHourFire`,
but advancing the minute, which may carry into the hour). -/
def applyMinuteFire (s : SysState) (now : Nat) (r : BtnResult) : SysState :=
  if r.fired then
    { s with minuteBtn := r.st,
             currentHour := (advanceMinute s.currentHour s.currentMinute).1,
             currentMinute := (advanceMinute s.currentHour s.currentMinute).2,
             currentSecond := 0,
             timeLocallyUpdated := if r.firstFire then true else s.timeLocallyUpdated,
             updateRTCTime := add32 now BUTTON_INACTION_RTC_UPDATE_DELAY,
             localWordRegister :=
               updateLocalWordRegister (advanceMinute s.currentHour s.currentMinute).1
                 (advanceMinute s.currentHour s.currentMinute).2 }
  else { s with minuteBtn := r.st }

/-- The write-back block at the end of `handleTimeAdjustButtons`: once a
local edit is pending, the write deadline has passed and neither button is
held, read the date from the RTC and write back
`(currentHour, currentMinute, BUTTON_INACTION_RTC_UPDATE_DELAY / MS_PER_SECOND)`. -/
def rtcWriteBack (s : SysState) (now : Nat) : SysState × Option DateTimeVal :=
  if s.timeLocallyUpdated = true ∧ writeDue now s.updateRTCTime = true ∧
      s.hourBtn.beingHeld = false ∧ s.minuteBtn.beingHeld = false then
    ({ s with rtc := ⟨s.rtc.year, s.rtc.month, s.rtc.day, s.currentHour, s.currentMinute,
                      BUTTON_INACTION_RTC_UPDATE_DELAY / MS_PER_SECOND⟩,
              timeLocallyUpdated := false,
              updateRTCTime := 0 },
     some ⟨s.rtc.year, s.rtc.month, s.rtc.day, s.currentHour, s.currentMinute,
           BUTTON_INACTION_RTC_UPDATE_DELAY / MS_PER_SECOND⟩)
  else (s, none)

/-- One call of `handleTimeAdjustButtons`: both buttons' debounce/hold
slices (their state is disjoint, so the sequential composition equals the
source's interleaving) followed by the RTC write-back block. -/
def handleTimeAdjustButtons (s : SysState) (now : Nat) (hourValue minuteValue : Bool) :
    SysState × TickOut :=
  let hr := buttonTick s.hourBtn now hourValue
  let mr := buttonTick s.minuteBtn now minuteValue
  let s2 := applyMinuteFire (applyHourFire s now hr) now mr
  let w := rtcWriteBack s2 now
  (w.1, ⟨(if hr.fired then 1 else 0) + (if mr.fired then 1 else 0), w.2, false,
         if w.2.isSome then 1 else 0⟩)

/-- One `loop()` iteration (brightness handling touches none of this state
and is omitted): the button handler, then the periodic RTC poll, which only
replaces the canonical time when no local edit is pending. -/
def loopTick (s : SysState) (now : Nat) (hourValue minuteValue : Bool) :
    SysState × TickOut :=
  let h := handleTimeAdjustButtons s now hourValue minuteValue
  if pollDue now h.1.lastRTCQueryTime = true ∧ h.1.timeLocallyUpdated = false then
    ({ h.1 with currentHour := h.1.rtc.hour,
                currentMinute := h.1.rtc.minute,
                currentSecond := h.1.rtc.second,
                localWordRegister := updateLocalWordRegister h.1.rtc.hour h.1.rtc.minute,
                lastRTCQueryTime := now },
     { h.2 with readCanonical := true, rtcReads := h.2.rtcReads + 1 })
  else (h.1, h.2)

/-- Run the system over a trace of `(millis, hourLevel, minuteLevel)`
samples, collecting the per-tick observable outputs. -/
def sysRun (s : SysState) : List (Nat × Bool × Bool) → SysState × List TickOut
  | [] => (s, [])
  | (now, hv, mv) :: rest =>
    (( sysRun (loopTick s now hv mv).1 rest).1,
     (loopTick s now hv mv).2 :: (sysRun (loopTick s now hv mv).1 rest).2)

/-- Observable I/O of `setup()`: the reset write (if any), the number of
`rtc.now()` reads, and the register rendered by the first display update. -/
structure SetupOut where
  wrote : Option DateTimeVal
  rtcReads : Nat
  rendered : Option Nat
deriving DecidableEq

/-- The `setup()` function, from the point where the RTC is consulted: if
the chip lost power, write the fixed reset epoch; then unconditionally read
the RTC once into the canonical time and render it
(`updateDisplayFromRTC`), and finally seed `lastRTCQueryTime` with the
startup `millis()` sample. -/
def setup (lostPower : Bool) (rtc0 : DateTimeVal) (startupMillis : Nat) :
    SysState × SetupOut :=
  let rtc1 := if lostPower then RTC_RESET_DATETIME else rtc0
  ({ currentHour := rtc1.hour,
     currentMinute := rtc1.minute,
     currentSecond := rtc1.second,
     lastRTCQueryTime := startupMillis,
     timeLocallyUpdated := false,
     localWordRegister := updateLocalWordRegister rtc1.hour rtc1.minute,
     hourBtn := initButton,
     minuteBtn := initButton,
     updateRTCTime := 0,
     rtc := rtc1 },
   ⟨if lostPower then some RTC_RESET_DATETIME else none, 1,
    some (updateLocalWordRegister rtc1.hour rtc1.minute)⟩)

/-- Concrete trace segments for the edit-then-silence scenario: a settling
tick, then (elsewhere) the press at 151 ms, release at 200 ms, and two
silent ticks, the second past the write deadline. -/
def W5A : List (Nat × Bool × Bool) := [(100, false, true)]

def W5P : List (Nat × Bool × Bool) := []

def W5B : List (Nat × Bool × Bool) := [(260, true, true), (5400, true, true)]

def W5s0 : SysState :=
  ⟨0, 0, 0, 0, false, 0, initButton, initButton, 0, ⟨2017, 1, 1, 0, 0, 0⟩⟩

/-! ## Theorems about the encoder -/

/-- Claim C1: for every hour in [0,23] and minute in [0,59], the word set
produced by `updateLocalWordRegister` contains exactly one 12-hour word,
contains OCLOCK iff minute < 5, PAST iff 5 ≤ minute < 35, and TO iff
35 ≤ minute. -/
theorem encoder_mode_words (hour : Nat) (hh : hour < 24) (minute : Nat) (hm : minute < 60) :
    countHourWords (updateLocalWordRegister hour minute) = 1 ∧
    (wordEnabled (updateLocalWordRegister hour minute) OCLOCK = true ↔ minute < 5) ∧
    (wordEnabled (updateLocalWordRegister hour minute) PAST = true ↔ 5 ≤ minute ∧ minute < 35) ∧
    (wordEnabled (updateLocalWordRegister hour minute) TO = true ↔ 35 ≤ minute) := by
  have H : ∀ h, h < 24 → ∀ m, m < 60 →
      countHourWords (updateLocalWordRegister h m) = 1 ∧
      (wordEnabled (updateLocalWordRegister h m) OCLOCK = true ↔ m < 5) ∧
      (wordEnabled (updateLocalWordRegister h m) PAST = true ↔ 5 ≤ m ∧ m < 35) ∧
      (wordEnabled (updateLocalWordRegister h m) TO = true ↔ 35 ≤ m) := by decide
  exact H hour hh minute hm

/-- Witness for C1: the theorem instantiated at 6:32 ("half past six"). -/
theorem encoder_mode_words_witness :
    (6 < 24 ∧ 32 < 60) ∧
    (countHourWords (updateLocalWordRegister 6 32) = 1 ∧
     (wordEnabled (updateLocalWordRegister 6 32) OCLOCK = true ↔ 32 < 5) ∧
     (wordEnabled (updateLocalWordRegister 6 32) PAST = true ↔ 5 ≤ 32 ∧ 32 < 35) ∧
     (wordEnabled (updateLocalWordRegister 6 32) TO = true ↔ 35 ≤ 32)) :=
  ⟨by decide, encoder_mode_words 6 (by decide) 32 (by decide)⟩

/-- Claim C6: the encoder's hour selection agrees with the spec's 12-hour
normalization `h = hour mod 12` (0 mapped to 12): for minute < 35 the word
for `h` is lit (with PAST once minute ≥ 5), for minute ≥ 35 TO and the word
for `h+1` (12 wrapping to 1) are lit; in particular both `encode(0,40)` and
`encode(12,40)` light ONE_H and TO. -/
theorem encoder_hour_selection (hour : Nat) (hh : hour < 24) (minute : Nat) (hm : minute < 60) :
    (minute < 35 →
      wordEnabled (updateLocalWordRegister hour minute) (hourWordFor (specNorm12 hour)) = true ∧
      (5 ≤ minute → wordEnabled (updateLocalWordRegister hour minute) PAST = true)) ∧
    (35 ≤ minute →
      wordEnabled (updateLocalWordRegister hour minute) TO = true ∧
      wordEnabled (updateLocalWordRegister hour minute) (hourWordFor (succ12 (specNorm12 hour))) = true) ∧
    (wordEnabled (updateLocalWordRegister 0 40) ONE_H = true ∧
     wordEnabled (updateLocalWordRegister 0 40) TO = true ∧
     wordEnabled (updateLocalWordRegister 12 40) ONE_H = true ∧
     wordEnabled (updateLocalWordRegister 12 40) TO = true) := by
  have H : ∀ h, h < 24 → ∀ m, m < 60 →
      (m < 35 →
        wordEnabled (updateLocalWordRegister h m) (hourWordFor (specNorm12 h)) = true ∧
        (5 ≤ m → wordEnabled (updateLocalWordRegister h m) PAST = true)) ∧
      (35 ≤ m →
        wordEnabled (updateLocalWordRegister h m) TO = true ∧
        wordEnabled (updateLocalWordRegister h m) (hourWordFor (succ12 (specNorm12 h))) = true) := by
    decide
  exact ⟨(H hour hh minute hm).1, (H hour hh minute hm).2, by decide⟩

/-- Witness for C6: the theorem instantiated at 0:40 ("twenty to one"). -/
theorem encoder_hour_selection_witness :
    (0 < 24 ∧ 40 < 60) ∧
    ((40 < 35 →
      wordEnabled (updateLocalWordRegister 0 40) (hourWordFor (specNorm12 0)) = true ∧
      (5 ≤ 40 → wordEnabled (updateLocalWordRegister 0 40) PAST = true)) ∧
    (35 ≤ 40 →
      wordEnabled (updateLocalWordRegister 0 40) TO = true ∧
      wordEnabled (updateLocalWordRegister 0 40) (hourWordFor (succ12 (specNorm12 0))) = true) ∧
    (wordEnabled (updateLocalWordRegister 0 40) ONE_H = true ∧
     wordEnabled (updateLocalWordRegister 0 40) TO = true ∧
     wordEnabled (updateLocalWordRegister 12 40) ONE_H = true ∧
     wordEnabled (updateLocalWordRegister 12 40) TO = true)) :=
  ⟨by decide, encoder_hour_selection 0 (by decide) 40 (by decide)⟩

/-- Claim C9: for every hour, minute 27 and minute 37 light exactly the same
minute words, namely TWENTY_M together with FIVE_M ("twenty five"). -/
theorem minute_bucket_symmetry (hour : Nat) (hh : hour < 24) :
    (∀ w ∈ minuteWordList,
      wordEnabled (updateLocalWordRegister hour 27) w =
        wordEnabled (updateLocalWordRegister hour 37) w) ∧
    wordEnabled (updateLocalWordRegister hour 27) TWENTY_M = true ∧
    wordEnabled (updateLocalWordRegister hour 27) FIVE_M = true ∧
    wordEnabled (updateLocalWordRegister hour 27) TEN_M = false ∧
    wordEnabled (updateLocalWordRegister hour 27) QUARTER_M = false ∧
    wordEnabled (updateLocalWordRegister hour 27) HALF_M = false ∧
    wordEnabled (updateLocalWordRegister hour 27) MINUTES = false := by
  have H : ∀ h, h < 24 →
      (∀ w ∈ minuteWordList,
        wordEnabled (updateLocalWordRegister h 27) w =
          wordEnabled (updateLocalWordRegister h 37) w) ∧
      wordEnabled (updateLocalWordRegister h 27) TWENTY_M = true ∧
      wordEnabled (updateLocalWordRegister h 27) FIVE_M = true ∧
      wordEnabled (updateLocalWordRegister h 27) TEN_M = false ∧
      wordEnabled (updateLocalWordRegister h 27) QUARTER_M = false ∧
      wordEnabled (updateLocalWordRegister h 27) HALF_M = false ∧
      wordEnabled (updateLocalWordRegister h 27) MINUTES = false := by decide
  exact H hour hh

/-- Witness for C9: the theorem instantiated at hour 6. -/
theorem minute_bucket_symmetry_witness :
    6 < 24 ∧
    ((∀ w ∈ minuteWordList,
      wordEnabled (updateLocalWordRegister 6 27) w =
        wordEnabled (updateLocalWordRegister 6 37) w) ∧
    wordEnabled (updateLocalWordRegister 6 27) TWENTY_M = true ∧
    wordEnabled (updateLocalWordRegister 6 27) FIVE_M = true ∧
    wordEnabled (updateLocalWordRegister 6 27) TEN_M = false ∧
    wordEnabled (updateLocalWordRegister 6 27) QUARTER_M = false ∧
    wordEnabled (updateLocalWordRegister 6 27) HALF_M = false ∧
    wordEnabled (updateLocalWordRegister 6 27) MINUTES = false) :=
  ⟨by decide, minute_bucket_symmetry 6 (by decide)⟩

/-- Claim C10: over the whole valid input range, the encoder never enables
the MINUTES word (bit 15), although it is a member of the enumeration. -/
theorem minutes_word_never_enabled (hour : Nat) (hh : hour < 24) (minute : Nat) (hm : minute < 60) :
    wordEnabled (updateLocalWordRegister hour minute) MINUTES = false := by
  have H : ∀ h, h < 24 → ∀ m, m < 60 →
      wordEnabled (updateLocalWordRegister h m) MINUTES = false := by decide
  exact H hour hh minute hm

/-- Witness for C10: the theorem instantiated at 23:59. -/
theorem minutes_word_never_enabled_witness :
    (23 < 24 ∧ 59 < 60) ∧
    wordEnabled (updateLocalWordRegister 23 59) MINUTES = false :=
  ⟨by decide, minutes_word_never_enabled 23 (by decide) 59 (by decide)⟩

/-! ## Shared arithmetic lemmas about the 32-bit counter -/

lemma sub32_self (a : Nat) : sub32 a a = 0 := by
  simp only [sub32, UINT32_MOD]
  omega

lemma sub32_small (a b : Nat) (hba : b ≤ a) (h : a - b < UINT32_MOD) :
    sub32 a b = a - b := by
  simp only [sub32, UINT32_MOD] at *
  omega

lemma add32_small (a b : Nat) (h : a + b < UINT32_MOD) : add32 a b = a + b := by
  simp only [add32, UINT32_MOD] at *
  omega

lemma sub32_wrap (T e : Nat) (he : e < UINT32_MOD) :
    sub32 ((T + e) % UINT32_MOD) (T % UINT32_MOD) = e := by
  simp only [sub32, UINT32_MOD] at *
  omega

/-! ## Theorems about time advancement -/

/-- Claim C2 (code bug): a minute-advance at 23:59 yields hour 24, outside
the declared range [0,23] — `advanceMinute` increments the hour without the
23→0 wrap that `advanceHour` performs on the hour button. -/
theorem advanceMinute_hour_range_bug :
    advanceMinute 23 59 = (24, 0) ∧ ¬ (advanceMinute 23 59).1 ≤ 23 ∧
    advanceHour 23 = 0 := by decide

/-! ## Theorems about the elapsed-time comparisons under counter wraparound -/

/-- Claim C4 counterexample: with the last event at machine time
`2^32 - 100` and only 50 ms of real elapsed time (well below half the
counter range), the hold-repeat comparison (`now >= nextAdvanceTime`) and
the RTC-write-deadline comparison (`now > updateRTCTime`) both fire across
the counter wrap even though their 1000 ms / 5000 ms thresholds have not
elapsed: these two comparisons are deadline comparisons, not unsigned
subtractions, and are not wraparound-correct. -/
theorem deadline_compare_wrap_counterexample :
    repeatDue ((UINT32_MOD - 100 + 50) % UINT32_MOD)
        (add32 ((UINT32_MOD - 100) % UINT32_MOD) BUTTON_HOLD_ACTION_REPEAT_PERIOD) = true ∧
    writeDue ((UINT32_MOD - 100 + 50) % UINT32_MOD)
        (add32 ((UINT32_MOD - 100) % UINT32_MOD) BUTTON_INACTION_RTC_UPDATE_DELAY) = true ∧
    (50 : Nat) < 2 ^ 31 ∧
    ¬ BUTTON_HOLD_ACTION_REPEAT_PERIOD ≤ 50 ∧
    ¬ BUTTON_INACTION_RTC_UPDATE_DELAY < 50 := by decide

/-- Claim C4 (amended): the debounce-settling and RTC-poll comparisons are
unsigned subtractions of the last-event timestamp from the current counter
value and behave correctly across counter wraparound for intervals below
half the counter range; the hold-repeat and RTC-write-deadline checks
instead compare the counter directly against a precomputed deadline, which
is correct only when arming the deadline does not wrap, and misfires across
wraparound. -/
theorem elapsed_compare_wrap_behavior (T e : Nat) (he : e < 2 ^ 31) :
    (debounceSettled ((T + e) % UINT32_MOD) (T % UINT32_MOD) =
      decide (BUTTON_DEBOUNCE_MS < e)) ∧
    (pollDue ((T + e) % UINT32_MOD) (T % UINT32_MOD) =
      decide (RTC_QUERY_PERIOD_MILLIS < e)) ∧
    (T + e + BUTTON_INACTION_RTC_UPDATE_DELAY < UINT32_MOD →
      repeatDue (T + e) (add32 T BUTTON_HOLD_ACTION_REPEAT_PERIOD) =
        decide (BUTTON_HOLD_ACTION_REPEAT_PERIOD ≤ e) ∧
      writeDue (T + e) (add32 T BUTTON_INACTION_RTC_UPDATE_DELAY) =
        decide (BUTTON_INACTION_RTC_UPDATE_DELAY < e)) ∧
    (∃ T2 e2, e2 < 2 ^ 31 ∧
      repeatDue ((T2 + e2) % UINT32_MOD)
        (add32 (T2 % UINT32_MOD) BUTTON_HOLD_ACTION_REPEAT_PERIOD) = true ∧
      ¬ BUTTON_HOLD_ACTION_REPEAT_PERIOD ≤ e2) ∧
    (∃ T3 e3, e3 < 2 ^ 31 ∧
      writeDue ((T3 + e3) % UINT32_MOD)
        (add32 (T3 % UINT32_MOD) BUTTON_INACTION_RTC_UPDATE_DELAY) = true ∧
      ¬ BUTTON_INACTION_RTC_UPDATE_DELAY < e3) := by
  have hW : e < UINT32_MOD := by
    simp only [UINT32_MOD]
    omega
  refine ⟨?_, ?_, ?_, ?_, ?_⟩
  · rw [debounceSettled, sub32_wrap T e hW]
  · rw [pollDue, sub32_wrap T e hW]
  · intro hnw
    have h1 : add32 T BUTTON_HOLD_ACTION_REPEAT_PERIOD = T + BUTTON_HOLD_ACTION_REPEAT_PERIOD := by
      apply add32_small
      simp only [BUTTON_HOLD_ACTION_REPEAT_PERIOD, BUTTON_INACTION_RTC_UPDATE_DELAY] at *
      omega
    have h2 : add32 T BUTTON_INACTION_RTC_UPDATE_DELAY = T + BUTTON_INACTION_RTC_UPDATE_DELAY := by
      apply add32_small
      omega
    constructor
    · rw [repeatDue, h1]
      exact decide_eq_decide.mpr (by omega)
    · rw [writeDue, h2]
      exact decide_eq_decide.mpr (by omega)
  · exact ⟨UINT32_MOD - 100, 50, by decide, by decide, by decide⟩
  · exact ⟨UINT32_MOD - 100, 50, by decide, by decide, by decide⟩

/-- Witness for C4 (amended): the theorem instantiated at `T = 1000`,
`e = 51`. -/
theorem elapsed_compare_wrap_behavior_witness :
    (51 : Nat) < 2 ^ 31 ∧
    (1000 + 51 + BUTTON_INACTION_RTC_UPDATE_DELAY < UINT32_MOD) ∧
    (debounceSettled ((1000 + 51) % UINT32_MOD) (1000 % UINT32_MOD) =
      decide (BUTTON_DEBOUNCE_MS < 51)) ∧
    (repeatDue (1000 + 51) (add32 1000 BUTTON_HOLD_ACTION_REPEAT_PERIOD) =
      decide (BUTTON_HOLD_ACTION_REPEAT_PERIOD ≤ 51)) :=
  ⟨by decide, by decide, (elapsed_compare_wrap_behavior 1000 51 (by decide)).1,
   ((elapsed_compare_wrap_behavior 1000 51 (by decide)).2.2.1 (by decide)).1⟩

/-! ## Theorems about the button debounce / hold state machine -/

lemma buttonRunFires_fastToggle (tr : List (Nat × Bool)) (s : ButtonState)
    (h : ∀ p ∈ lctList s.lastChange s.lastValue tr, sub32 p.1 p.2 ≤ BUTTON_DEBOUNCE_MS) :
    buttonRunFires s tr = 0 := by
  induction tr generalizing s with
  | nil => rfl
  | cons e rest ih =>
    obtain ⟨now, v⟩ := e
    have hhead : sub32 now (if v ≠ s.lastValue then now else s.lastChange) ≤ BUTTON_DEBOUNCE_MS :=
      h (now, if v ≠ s.lastValue then now else s.lastChange) (by simp [lctList])
    have hns : debounceSettled now (debounceUpdate s now v).lastChange = false := by
      simp only [debounceSettled, debounceUpdate, decide_eq_false_iff_not, not_lt]
      exact hhead
    have hbt : buttonTick s now v = ⟨debounceUpdate s now v, false, false⟩ := by
      simp [buttonTick, hns]
    have htail : ∀ p ∈ lctList (debounceUpdate s now v).lastChange
        (debounceUpdate s now v).lastValue rest, sub32 p.1 p.2 ≤ BUTTON_DEBOUNCE_MS := by
      intro p hp
      exact h p (by simp only [lctList, debounceUpdate] at hp ⊢; exact List.mem_cons_of_mem _ hp)
    simp only [buttonRunFires, hbt]
    simpa using ih (debounceUpdate s now v) htail

lemma buttonTick_steady (t0 i : Nat) (hW : t0 + i + 1051 < UINT32_MOD) :
    buttonTick (steadyStateAt t0 i) (t0 + i) false =
      ⟨steadyStateAt t0 (i + 1), decide (51 ≤ i ∧ (i - 51) % 1000 = 0),
       decide (i = 51)⟩ := by
  rcases Nat.lt_or_ge i 1 with h0 | h1
  · -- i = 0: the level change is recorded, nothing is settled yet
    interval_cases i
    simp [steadyStateAt, buttonTick, debounceUpdate, initButton, debounceSettled, sub32_self,
      BUTTON_DEBOUNCE_MS]
  rcases Nat.lt_or_ge i 51 with h50 | h51
  · -- 1 ≤ i ≤ 50: stable but not yet past the debounce interval
    have hL : steadyStateAt t0 i = ⟨t0, false, false, 0⟩ := by
      simp only [steadyStateAt]
      rw [if_neg (by omega), if_pos (by omega)]
    have hR : steadyStateAt t0 (i + 1) = ⟨t0, false, false, 0⟩ := by
      simp only [steadyStateAt]
      rw [if_neg (by omega), if_pos (by omega)]
    have hs : sub32 (t0 + i) t0 = i := by
      have := sub32_small (t0 + i) t0 (by omega) (by omega)
      omega
    have hd : debounceSettled (t0 + i) t0 = false := by
      simp only [debounceSettled, hs, BUTTON_DEBOUNCE_MS, decide_eq_false_iff_not]
      omega
    have hf : decide (51 ≤ i ∧ (i - 51) % 1000 = 0) = false := by
      simp only [decide_eq_false_iff_not]
      omega
    have hff : decide (i = 51) = false := by
      simp only [decide_eq_false_iff_not]
      omega
    rw [hL, hR, hf, hff]
    simp [buttonTick, debounceUpdate, hd]
  rcases Nat.eq_or_lt_of_le h51 with h51e | h52
  · -- i = 51: the press is recognised, one event fires immediately
    have hL : steadyStateAt t0 i = ⟨t0, false, false, 0⟩ := by
      simp only [steadyStateAt]
      rw [if_neg (by omega), if_pos (by omega)]
    have hR : steadyStateAt t0 (i + 1) = ⟨t0, false, true, t0 + 51 + 1000 * ((i + 1 - 52) / 1000 + 1)⟩ := by
      simp only [steadyStateAt]
      rw [if_neg (by omega), if_neg (by omega)]
    have hs : sub32 (t0 + i) t0 = i := by
      have := sub32_small (t0 + i) t0 (by omega) (by omega)
      omega
    have hd : debounceSettled (t0 + i) t0 = true := by
      simp only [debounceSettled, hs, BUTTON_DEBOUNCE_MS, decide_eq_true_eq]
      omega
    have ha : add32 (t0 + i) BUTTON_HOLD_ACTION_REPEAT_PERIOD = t0 + i + 1000 := by
      rw [BUTTON_HOLD_ACTION_REPEAT_PERIOD]
      exact add32_small _ _ (by omega)
    have hf : decide (51 ≤ i ∧ (i - 51) % 1000 = 0) = true := by
      simp only [decide_eq_true_eq]
      omega
    have hff : decide (i = 51) = true := by
      simp only [decide_eq_true_eq]
      omega
    rw [hL, hR, hf, hff]
    simp [buttonTick, debounceUpdate, hd, ha, BtnResult.mk.injEq, ButtonState.mk.injEq]
    omega
  · -- i ≥ 52: the button is held; events fire exactly when the repeat deadline passes
    have hL : steadyStateAt t0 i = ⟨t0, false, true, t0 + 51 + 1000 * ((i - 52) / 1000 + 1)⟩ := by
      simp only [steadyStateAt]
      rw [if_neg (by omega), if_neg (by omega)]
    have hR : steadyStateAt t0 (i + 1) =
        ⟨t0, false, true, t0 + 51 + 1000 * ((i + 1 - 52) / 1000 + 1)⟩ := by
      simp only [steadyStateAt]
      rw [if_neg (by omega), if_neg (by omega)]
    have hs : sub32 (t0 + i) t0 = i := by
      have := sub32_small (t0 + i) t0 (by omega) (by omega)
      omega
    have hd : debounceSettled (t0 + i) t0 = true := by
      simp only [debounceSettled, hs, BUTTON_DEBOUNCE_MS, decide_eq_true_eq]
      omega
    have hff : decide (i = 51) = false := by
      simp only [decide_eq_false_iff_not]
      omega
    rw [hL, hR, hff]
    by_cases hm : (i - 51) % 1000 = 0
    · have hrep : repeatDue (t0 + i) (t0 + 51 + 1000 * ((i - 52) / 1000 + 1)) = true := by
        simp only [repeatDue, decide_eq_true_eq]
        omega
      have ha : add32 (t0 + i) BUTTON_HOLD_ACTION_REPEAT_PERIOD = t0 + i + 1000 := by
        rw [BUTTON_HOLD_ACTION_REPEAT_PERIOD]
        exact add32_small _ _ (by omega)
      have hf : decide (51 ≤ i ∧ (i - 51) % 1000 = 0) = true := by
        simp only [decide_eq_true_eq]
        omega
      rw [hf]
      simp [buttonTick, debounceUpdate, hd, hrep, ha, BtnResult.mk.injEq, ButtonState.mk.injEq]
      omega
    · have hrep : repeatDue (t0 + i) (t0 + 51 + 1000 * ((i - 52) / 1000 + 1)) = false := by
        simp only [repeatDue, decide_eq_false_iff_not]
        omega
      have hf : decide (51 ≤ i ∧ (i - 51) % 1000 = 0) = false := by
        simp only [decide_eq_false_iff_not]
        omega
      rw [hf]
      simp [buttonTick, debounceUpdate, hd, hrep, BtnResult.mk.injEq, ButtonState.mk.injEq]
      omega

lemma steadyFrom_succ (t0 i m : Nat) :
    steadyFrom t0 i (m + 1) = (t0 + i, false) :: steadyFrom t0 (i + 1) m := by
  simp only [steadyFrom, List.range_succ_eq_map, List.map_cons, List.map_map]
  refine congrArg₂ List.cons (by simp) ?_
  have hfun : ((fun k => (t0 + i + k, false)) ∘ Nat.succ) =
      (fun k => (t0 + (i + 1) + k, (false : Bool))) := by
    funext k
    simp only [Function.comp_apply, Prod.mk.injEq]
    exact ⟨by omega, trivial⟩
  rw [hfun]

lemma buttonRunList_steady (t0 : Nat) :
    ∀ m i, t0 + i + m + 1051 < UINT32_MOD →
    buttonRunList (steadyStateAt t0 i) (steadyFrom t0 i m) =
      (List.range m).map (fun k => decide (51 ≤ i + k ∧ (i + k - 51) % 1000 = 0)) := by
  intro m
  induction m with
  | zero => intro i _; rfl
  | succ m ih =>
    intro i hW
    rw [steadyFrom_succ]
    simp only [buttonRunList, buttonTick_steady t0 i (by omega)]
    rw [ih (i + 1) (by omega)]
    rw [List.range_succ_eq_map, List.map_cons, List.map_map]
    refine congrArg₂ List.cons (by simp) ?_
    have hfun : ((fun k => decide (51 ≤ i + k ∧ (i + k - 51) % 1000 = 0)) ∘ Nat.succ) =
        (fun k => decide (51 ≤ i + 1 + k ∧ (i + 1 + k - 51) % 1000 = 0)) := by
      funext k
      simp only [Function.comp_apply]
      exact decide_eq_decide.mpr (by omega)
    rw [hfun]

/-- Claim C7 counterexample: a LOW level that has persisted for exactly the
debounce interval (50 ms — "at least the debounce interval") is NOT yet
recognised as a press: the comparison in the source is strict, so the trace
(LOW at 0 ms, LOW at 50 ms) fires zero advance events. -/
theorem debounce_boundary_counterexample :
    sub32 50 0 = BUTTON_DEBOUNCE_MS ∧
    buttonRunList initButton [((0 : Nat), false), (50, false)] = [false, false] ∧
    buttonRunFires initButton [((0 : Nat), false), (50, false)] = 0 := by decide

/-- Claim C7 (amended): for each button independently, (a) a raw level whose
most recent change is never more than the debounce interval in the past
(i.e. the level toggles at least every 50 ms) produces zero advance events;
(b) a LOW level held steady on the 1 ms tick grid fires exactly at tick 51 —
the first tick strictly more than the 50 ms debounce interval after the
level change — and then once per elapsed 1000 ms repeat period while held:
recognition requires the level to persist strictly longer than the debounce
interval, not merely "at least" as long. -/
theorem button_debounce_behavior (tr : List (Nat × Bool)) (s : ButtonState) (t0 n : Nat)
    (hfast : ∀ p ∈ lctList s.lastChange s.lastValue tr, sub32 p.1 p.2 ≤ BUTTON_DEBOUNCE_MS)
    (hW : t0 + n + 1051 < UINT32_MOD) :
    buttonRunFires s tr = 0 ∧
    buttonRunList initButton (steadyFrom t0 0 n) =
      (List.range n).map (fun i => decide (51 ≤ i ∧ (i - 51) % 1000 = 0)) := by
  refine ⟨buttonRunFires_fastToggle tr s hfast, ?_⟩
  have h := buttonRunList_steady t0 n 0 (by omega)
  have h0 : steadyStateAt t0 0 = initButton := by simp [steadyStateAt]
  rw [h0] at h
  simpa using h

/-- Witness for C7 (amended): a level toggling every 30 ms fires nothing,
and the 60-tick steady-LOW grid run from boot matches the closed form. -/
theorem button_debounce_behavior_witness :
    ((∀ p ∈ lctList initButton.lastChange initButton.lastValue
        [((0 : Nat), false), (30, true), (60, false)],
        sub32 p.1 p.2 ≤ BUTTON_DEBOUNCE_MS) ∧
      (0 : Nat) + 60 + 1051 < UINT32_MOD) ∧
    (buttonRunFires initButton [((0 : Nat), false), (30, true), (60, false)] = 0 ∧
     buttonRunList initButton (steadyFrom 0 0 60) =
       (List.range 60).map (fun i => decide (51 ≤ i ∧ (i - 51) % 1000 = 0))) :=
  ⟨⟨by decide, by decide⟩,
   button_debounce_behavior [((0 : Nat), false), (30, true), (60, false)] initButton 0 60
     (by decide) (by decide)⟩

/-! ## Theorems about the RTC write-back value -/

/-- Claim C3 counterexample: in a state with a pending local edit
(canonical time 7:20, `currentSecond = 0`, write deadline passed, no button
held), the value handed to `rtc.adjust` carries seconds = 5
(`BUTTON_INACTION_RTC_UPDATE_DELAY / MS_PER_SECOND`), not the canonical
second field 0 that the claim asserts. -/
theorem rtc_writeback_second_counterexample :
    (handleTimeAdjustButtons
        ⟨7, 20, 0, 0, true, 0, initButton, initButton, 100, ⟨2021, 6, 15, 3, 4, 5⟩⟩
        6000 true true).2.wrote = some ⟨2021, 6, 15, 7, 20, 5⟩ ∧
    (⟨7, 20, 0, 0, true, 0, initButton, initButton, 100,
        ⟨2021, 6, 15, 3, 4, 5⟩⟩ : SysState).currentSecond = 0 ∧
    ¬ (5 : Nat) = 0 := by decide

/-- Claim C3 (amended): whenever the write-back path fires, the value
written to the RTC is `(currentHour, currentMinute, 5)` — the hour and
minute are the canonical time at the end of the button handler and the
seconds field is the constant `BUTTON_INACTION_RTC_UPDATE_DELAY /
MS_PER_SECOND = 5`, not the canonical `second` field (which every advance
event resets to 0); the date fields are read back from the RTC. -/
theorem rtc_writeback_value (s : SysState) (now : Nat) (hv mv : Bool) (d : DateTimeVal)
    (hw : (handleTimeAdjustButtons s now hv mv).2.wrote = some d) :
    d.second = BUTTON_INACTION_RTC_UPDATE_DELAY / MS_PER_SECOND ∧
    d.second = 5 ∧
    d.hour = (handleTimeAdjustButtons s now hv mv).1.currentHour ∧
    d.minute = (handleTimeAdjustButtons s now hv mv).1.currentMinute ∧
    d.year = s.rtc.year ∧ d.month = s.rtc.month ∧ d.day = s.rtc.day ∧
    (handleTimeAdjustButtons s now hv mv).1.rtc = d := by
  simp only [handleTimeAdjustButtons, rtcWriteBack, applyMinuteFire, applyHourFire] at hw ⊢
  split_ifs at hw ⊢ <;>
    simp_all [BUTTON_INACTION_RTC_UPDATE_DELAY, MS_PER_SECOND] <;>
    subst hw <;> simp

/-- Witness for C3 (amended): the theorem applied to a concrete state with
a pending edit at 11:45 whose deadline has passed. -/
theorem rtc_writeback_value_witness :
    ((handleTimeAdjustButtons
        ⟨11, 45, 0, 0, true, 0, initButton, initButton, 7000, ⟨2019, 2, 3, 9, 9, 9⟩⟩
        7100 true true).2.wrote = some ⟨2019, 2, 3, 11, 45, 5⟩) ∧
    ((5 : Nat) = BUTTON_INACTION_RTC_UPDATE_DELAY / MS_PER_SECOND ∧
     (5 : Nat) = 5 ∧
     (11 : Nat) = (handleTimeAdjustButtons
        ⟨11, 45, 0, 0, true, 0, initButton, initButton, 7000, ⟨2019, 2, 3, 9, 9, 9⟩⟩
        7100 true true).1.currentHour ∧
     (45 : Nat) = (handleTimeAdjustButtons
        ⟨11, 45, 0, 0, true, 0, initButton, initButton, 7000, ⟨2019, 2, 3, 9, 9, 9⟩⟩
        7100 true true).1.currentMinute ∧
     (2019 : Nat) = 2019 ∧ (2 : Nat) = 2 ∧ (3 : Nat) = 3 ∧
     (handleTimeAdjustButtons
        ⟨11, 45, 0, 0, true, 0, initButton, initButton, 7000, ⟨2019, 2, 3, 9, 9, 9⟩⟩
        7100 true true).1.rtc = ⟨2019, 2, 3, 11, 45, 5⟩) :=
  ⟨by decide,
   rtc_writeback_value
     ⟨11, 45, 0, 0, true, 0, initButton, initButton, 7000, ⟨2019, 2, 3, 9, 9, 9⟩⟩
     7100 true true ⟨2019, 2, 3, 11, 45, 5⟩ (by decide)⟩

/-! ## Theorems about startup after RTC power loss -/

/-- Claim C8: if the RTC reports power loss at startup, `setup` writes the
fixed reset epoch 2017-01-01T00:00:00 to the RTC, then unconditionally
performs exactly one read before the first render, so the canonical time
equals the reset epoch immediately after initialization, the rendered
register is the encoding of 0:00, and `lastRTCQueryTime` is seeded with the
startup `millis()` sample so the periodic poll cannot fire until the poll
period has elapsed. -/
theorem setup_power_loss (rtc0 : DateTimeVal) (t0 : Nat) :
    (setup true rtc0 t0).1.currentHour = RTC_RESET_HOUR ∧
    (setup true rtc0 t0).1.currentMinute = RTC_RESET_MINUTE ∧
    (setup true rtc0 t0).1.currentSecond = RTC_RESET_SECOND ∧
    (setup true rtc0 t0).1.rtc = RTC_RESET_DATETIME ∧
    (setup true rtc0 t0).2.wrote = some RTC_RESET_DATETIME ∧
    (setup true rtc0 t0).2.rtcReads = 1 ∧
    (setup true rtc0 t0).2.rendered =
      some (updateLocalWordRegister RTC_RESET_HOUR RTC_RESET_MINUTE) ∧
    (setup true rtc0 t0).1.lastRTCQueryTime = t0 ∧
    (∀ now, sub32 now t0 ≤ RTC_QUERY_PERIOD_MILLIS →
      pollDue now (setup true rtc0 t0).1.lastRTCQueryTime = false) := by
  refine ⟨rfl, rfl, rfl, rfl, rfl, rfl, rfl, rfl, ?_⟩
  intro now h
  simp only [setup, pollDue, decide_eq_false_iff_not, not_lt]
  exact h

/-- Witness for C8: the theorem applied with a concrete pre-existing RTC
value and startup time, with the poll checked 3877 ms after startup. -/
theorem setup_power_loss_witness :
    (sub32 4000 123 ≤ RTC_QUERY_PERIOD_MILLIS) ∧
    ((setup true ⟨2024, 12, 31, 23, 59, 58⟩ 123).1.currentHour = RTC_RESET_HOUR ∧
     (setup true ⟨2024, 12, 31, 23, 59, 58⟩ 123).1.rtc = RTC_RESET_DATETIME ∧
     (setup true ⟨2024, 12, 31, 23, 59, 58⟩ 123).2.wrote = some RTC_RESET_DATETIME ∧
     (setup true ⟨2024, 12, 31, 23, 59, 58⟩ 123).1.lastRTCQueryTime = 123 ∧
     pollDue 4000 (setup true ⟨2024, 12, 31, 23, 59, 58⟩ 123).1.lastRTCQueryTime = false) :=
  ⟨by decide,
   (setup_power_loss ⟨2024, 12, 31, 23, 59, 58⟩ 123).1,
   (setup_power_loss ⟨2024, 12, 31, 23, 59, 58⟩ 123).2.2.2.1,
   (setup_power_loss ⟨2024, 12, 31, 23, 59, 58⟩ 123).2.2.2.2.1,
   (setup_power_loss ⟨2024, 12, 31, 23, 59, 58⟩ 123).2.2.2.2.2.2.2.1,
   (setup_power_loss ⟨2024, 12, 31, 23, 59, 58⟩ 123).2.2.2.2.2.2.2.2 4000 (by decide)⟩

/-! ## Per-tick characterization lemmas for the edit-then-silence scenario -/

lemma buttonTick_true_parts (s : ButtonState) (now : Nat) :
    (buttonTick s now true).fired = false ∧
    (buttonTick s now true).st.lastValue = true ∧
    (buttonTick s now true).st.nextAdvance = s.nextAdvance ∧
    ((buttonTick s now true).st.beingHeld = true → s.beingHeld = true) := by
  simp only [buttonTick, debounceUpdate]
  split_ifs <;> simp_all

lemma buttonTick_true_idle (s : ButtonState) (now : Nat)
    (hlv : s.lastValue = true) (hheld : s.beingHeld = false) :
    buttonTick s now true = ⟨s, false, false⟩ := by
  obtain ⟨lc, lv, bh, na⟩ := s
  simp only at hlv hheld
  subst hlv hheld
  simp only [buttonTick, debounceUpdate]
  split_ifs <;> simp_all

lemma buttonTick_releaseLow (s : ButtonState) (now : Nat) (hlv : s.lastValue = false) :
    buttonTick s now true = ⟨⟨now, true, s.beingHeld, s.nextAdvance⟩, false, false⟩ := by
  obtain ⟨lc, lv, bh, na⟩ := s
  simp only at hlv
  subst hlv
  have hns : debounceSettled now now = false := by
    simp [debounceSettled, sub32_self]
  simp [buttonTick, debounceUpdate, hns]

lemma buttonTick_false_heldNoRepeat (s : ButtonState) (now : Nat)
    (hlv : s.lastValue = false) (hheld : s.beingHeld = true)
    (hrep : repeatDue now s.nextAdvance = false) :
    buttonTick s now false = ⟨s, false, false⟩ := by
  obtain ⟨lc, lv, bh, na⟩ := s
  simp only at hlv hheld hrep
  subst hlv hheld
  simp only [buttonTick, debounceUpdate]
  split_ifs <;> simp_all

lemma buttonTick_firstFire (s : ButtonState) (now : Nat) (hheld : s.beingHeld = false)
    (hfire : (buttonTick s now false).fired = true) :
    buttonTick s now false =
      ⟨⟨(debounceUpdate s now false).lastChange, false, true,
        add32 now BUTTON_HOLD_ACTION_REPEAT_PERIOD⟩, true, true⟩ := by
  obtain ⟨lc, lv, bh, na⟩ := s
  simp only at hheld
  subst hheld
  simp only [buttonTick, debounceUpdate] at hfire ⊢
  split_ifs at hfire ⊢ <;> simp_all

lemma sysRun_length (xs : List (Nat × Bool × Bool)) :
    ∀ s : SysState, (sysRun s xs).2.length = xs.length := by
  induction xs with
  | nil => intro s; rfl
  | cons e rest ih =>
    intro s
    obtain ⟨now, hv, mv⟩ := e
    simp only [sysRun, List.length_cons, ih]

lemma sysRun_const (P : List (Nat × Bool × Bool)) :
    ∀ s : SysState, (∀ e ∈ P, loopTick s e.1 e.2.1 e.2.2 = (s, ⟨0, none, false, 0⟩)) →
    (sysRun s P).1 = s ∧ ∀ o ∈ (sysRun s P).2, o = ⟨0, none, false, 0⟩ := by
  induction P with
  | nil => intro s _; exact ⟨rfl, by simp [sysRun]⟩
  | cons e rest ih =>
    intro s h
    obtain ⟨now, hv, mv⟩ := e
    have hhead := h (now, hv, mv) (List.mem_cons_self _ _)
    simp only at hhead
    have htail := ih s fun e he => h e (List.mem_cons_of_mem _ he)
    simp only [sysRun, hhead]
    refine ⟨htail.1, ?_⟩
    intro o ho
    rcases List.mem_cons.mp ho with rfl | ho
    · rfl
    · exact htail.2 o ho

lemma buttonTick_notFired_heldFalse (s : ButtonState) (now : Nat) (v : Bool)
    (hnf : (buttonTick s now v).fired = false) (hh : s.beingHeld = false) :
    (buttonTick s now v).st.beingHeld = false := by
  simp only [buttonTick, debounceUpdate] at hnf ⊢
  split_ifs at hnf ⊢ <;> simp_all

lemma loopTick_out_advances (s : SysState) (now : Nat) (hv mv : Bool) :
    (loopTick s now hv mv).2.advances =
      (if (buttonTick s.hourBtn now hv).fired then 1 else 0) +
      (if (buttonTick s.minuteBtn now mv).fired then 1 else 0) := by
  simp only [loopTick, handleTimeAdjustButtons]
  split <;> rfl

lemma loopTick_noFire (s : SysState) (now : Nat) (hv mv : Bool)
    (hflag : s.timeLocallyUpdated = false)
    (hh : s.hourBtn.beingHeld = false) (hm : s.minuteBtn.beingHeld = false)
    (hadv : (loopTick s now hv mv).2.advances = 0) :
    (loopTick s now hv mv).1.timeLocallyUpdated = false ∧
    (loopTick s now hv mv).1.hourBtn.beingHeld = false ∧
    (loopTick s now hv mv).1.minuteBtn.beingHeld = false ∧
    (loopTick s now hv mv).2.wrote = none := by
  rw [loopTick_out_advances] at hadv
  have hfh : (buttonTick s.hourBtn now hv).fired = false := by
    by_cases h : (buttonTick s.hourBtn now hv).fired <;> simp_all
  have hfm : (buttonTick s.minuteBtn now mv).fired = false := by
    by_cases h : (buttonTick s.minuteBtn now mv).fired <;> simp_all
  have hh' := buttonTick_notFired_heldFalse s.hourBtn now hv hfh hh
  have hm' := buttonTick_notFired_heldFalse s.minuteBtn now mv hfm hm
  simp only [loopTick, handleTimeAdjustButtons, applyHourFire, applyMinuteFire, rtcWriteBack,
    hfh, hfm, if_false, Bool.false_eq_true]
  split_ifs <;> simp_all

lemma loopTick_high_quiet (s : SysState) (now : Nat)
    (hflag : s.timeLocallyUpdated = false) :
    (loopTick s now true true).1.timeLocallyUpdated = false ∧
    (loopTick s now true true).2.advances = 0 ∧
    (loopTick s now true true).2.wrote = none := by
  have hfh := (buttonTick_true_parts s.hourBtn now).1
  have hfm := (buttonTick_true_parts s.minuteBtn now).1
  refine ⟨?_, ?_, ?_⟩
  · simp only [loopTick, handleTimeAdjustButtons, applyHourFire, applyMinuteFire, rtcWriteBack,
      hfh, hfm, if_false, Bool.false_eq_true]
    split_ifs <;> simp_all
  · rw [loopTick_out_advances, hfh, hfm]
    simp
  · simp only [loopTick, handleTimeAdjustButtons, applyHourFire, applyMinuteFire, rtcWriteBack,
      hfh, hfm, if_false, Bool.false_eq_true]
    split_ifs <;> simp_all

lemma sysRun_quiet_idle (xs : List (Nat × Bool × Bool)) :
    ∀ s : SysState, s.timeLocallyUpdated = false →
    s.hourBtn.beingHeld = false → s.minuteBtn.beingHeld = false →
    (∀ o ∈ (sysRun s xs).2, o.advances = 0) →
    (sysRun s xs).1.timeLocallyUpdated = false ∧
    (sysRun s xs).1.hourBtn.beingHeld = false ∧
    (sysRun s xs).1.minuteBtn.beingHeld = false ∧
    ∀ o ∈ (sysRun s xs).2, o.wrote = none := by
  induction xs with
  | nil => intro s h1 h2 h3 _; exact ⟨h1, h2, h3, by simp [sysRun]⟩
  | cons e rest ih =>
    intro s h1 h2 h3 hadv
    obtain ⟨now, hv, mv⟩ := e
    have hadv0 : (loopTick s now hv mv).2.advances = 0 := by
      refine hadv _ ?_
      simp only [sysRun]
      exact List.mem_cons_self _ _
    have hstep := loopTick_noFire s now hv mv h1 h2 h3 hadv0
    have hadvtail : ∀ o ∈ (sysRun (loopTick s now hv mv).1 rest).2, o.advances = 0 := by
      intro o ho
      refine hadv o ?_
      simp only [sysRun]
      exact List.mem_cons_of_mem _ ho
    have htail := ih (loopTick s now hv mv).1 hstep.1 hstep.2.1 hstep.2.2.1 hadvtail
    simp only [sysRun]
    refine ⟨htail.1, htail.2.1, htail.2.2.1, ?_⟩
    intro o ho
    rcases List.mem_cons.mp ho with rfl | ho
    · exact hstep.2.2.2
    · exact htail.2.2.2 o ho

lemma sysRun_quiet_done (xs : List (Nat × Bool × Bool)) :
    ∀ s : SysState, (∀ e ∈ xs, e.2.1 = true ∧ e.2.2 = true) →
    s.timeLocallyUpdated = false →
    (sysRun s xs).1.timeLocallyUpdated = false ∧
    ∀ o ∈ (sysRun s xs).2, o.advances = 0 ∧ o.wrote = none := by
  induction xs with
  | nil => intro s _ h1; exact ⟨h1, by simp [sysRun]⟩
  | cons e rest ih =>
    intro s hlv h1
    obtain ⟨now, hv, mv⟩ := e
    obtain ⟨hhv, hmv⟩ := hlv (now, hv, mv) (List.mem_cons_self _ _)
    simp only at hhv hmv
    subst hhv hmv
    have hstep := loopTick_high_quiet s now h1
    have htail := ih (loopTick s now true true).1
      (fun e he => hlv e (List.mem_cons_of_mem _ he)) hstep.1
    simp only [sysRun]
    refine ⟨htail.1, ?_⟩
    intro o ho
    rcases List.mem_cons.mp ho with rfl | ho
    · exact ⟨hstep.2.1, hstep.2.2⟩
    · exact htail.2 o ho

lemma applyHourFire_notFired (s : SysState) (now : Nat) (r : BtnResult)
    (h : r.fired = false) :
    applyHourFire s now r = { s with hourBtn := r.st } := by
  simp [applyHourFire, h]

lemma applyMinuteFire_notFired (s : SysState) (now : Nat) (r : BtnResult)
    (h : r.fired = false) :
    applyMinuteFire s now r = { s with minuteBtn := r.st } := by
  simp [applyMinuteFire, h]

lemma applyMinuteFire_fired_first (s : SysState) (now : Nat) (r : BtnResult)
    (h : r.fired = true) (h2 : r.firstFire = true) :
    applyMinuteFire s now r =
      { s with minuteBtn := r.st,
               currentHour := (advanceMinute s.currentHour s.currentMinute).1,
               currentMinute := (advanceMinute s.currentHour s.currentMinute).2,
               currentSecond := 0,
               timeLocallyUpdated := true,
               updateRTCTime := add32 now BUTTON_INACTION_RTC_UPDATE_DELAY,
               localWordRegister :=
                 updateLocalWordRegister (advanceMinute s.currentHour s.currentMinute).1
                   (advanceMinute s.currentHour s.currentMinute).2 } := by
  simp [applyMinuteFire, h, h2]

lemma rtcWriteBack_blocked (s : SysState) (now : Nat)
    (h : ¬ (s.timeLocallyUpdated = true ∧ writeDue now s.updateRTCTime = true ∧
        s.hourBtn.beingHeld = false ∧ s.minuteBtn.beingHeld = false)) :
    rtcWriteBack s now = (s, none) := by
  simp only [rtcWriteBack, if_neg h]

lemma loopTick_press_hour (s : SysState) (t : Nat)
    (hflag : s.timeLocallyUpdated = false)
    (hh : s.hourBtn.beingHeld = false) (hm : s.minuteBtn.beingHeld = false)
    (hfire : (buttonTick s.hourBtn t false).fired = true) :
    (loopTick s t false true).2 = ⟨1, none, false, 0⟩ ∧
    (loopTick s t false true).1.timeLocallyUpdated = true ∧
    (loopTick s t false true).1.updateRTCTime = add32 t BUTTON_INACTION_RTC_UPDATE_DELAY ∧
    (loopTick s t false true).1.hourBtn =
      ⟨(debounceUpdate s.hourBtn t false).lastChange, false, true,
       add32 t BUTTON_HOLD_ACTION_REPEAT_PERIOD⟩ ∧
    (loopTick s t false true).1.minuteBtn.lastValue = true ∧
    (loopTick s t false true).1.minuteBtn.beingHeld = false := by
  have hbt := buttonTick_firstFire s.hourBtn t hh hfire
  obtain ⟨hm1, hm2, hm3, hm4⟩ := buttonTick_true_parts s.minuteBtn t
  have hm5 : (buttonTick s.minuteBtn t true).st.beingHeld = false :=
    buttonTick_notFired_heldFalse s.minuteBtn t true hm1 hm
  simp only [loopTick, handleTimeAdjustButtons, applyHourFire, applyMinuteFire, rtcWriteBack,
    hbt, hm1]
  split_ifs <;> simp_all

set_option maxRecDepth 4000 in
lemma loopTick_press_minute (s : SysState) (t : Nat)
    (hflag : s.timeLocallyUpdated = false)
    (hh : s.hourBtn.beingHeld = false) (hm : s.minuteBtn.beingHeld = false)
    (hfire : (buttonTick s.minuteBtn t false).fired = true) :
    (loopTick s t true false).2 = ⟨1, none, false, 0⟩ ∧
    (loopTick s t true false).1.timeLocallyUpdated = true ∧
    (loopTick s t true false).1.updateRTCTime = add32 t BUTTON_INACTION_RTC_UPDATE_DELAY ∧
    (loopTick s t true false).1.minuteBtn =
      ⟨(debounceUpdate s.minuteBtn t false).lastChange, false, true,
       add32 t BUTTON_HOLD_ACTION_REPEAT_PERIOD⟩ ∧
    (loopTick s t true false).1.hourBtn.lastValue = true ∧
    (loopTick s t true false).1.hourBtn.beingHeld = false := by
  have hbt := buttonTick_firstFire s.minuteBtn t hm hfire
  obtain ⟨hh1, hh2, hh3, hh4⟩ := buttonTick_true_parts s.hourBtn t
  have hh5 : (buttonTick s.hourBtn t true).st.beingHeld = false :=
    buttonTick_notFired_heldFalse s.hourBtn t true hh1 hh
  simp only [loopTick, handleTimeAdjustButtons]
  rw [applyHourFire_notFired _ _ _ hh1,
    applyMinuteFire_fired_first _ _ _ (by rw [hbt]) (by rw [hbt]),
    rtcWriteBack_blocked _ _ (by simp only [hbt]; simp)]
  simp [hbt]
  exact ⟨hh1, hh2, hh5⟩

lemma loopTick_heldLow_idleHigh (s : SysState) (t : Nat)
    (hflag : s.timeLocallyUpdated = true)
    (hhv : s.hourBtn.lastValue = false) (hhh : s.hourBtn.beingHeld = true)
    (hrep : repeatDue t s.hourBtn.nextAdvance = false)
    (hmv : s.minuteBtn.lastValue = true) (hmh : s.minuteBtn.beingHeld = false) :
    loopTick s t false true = (s, ⟨0, none, false, 0⟩) := by
  have hbt := buttonTick_false_heldNoRepeat s.hourBtn t hhv hhh hrep
  have hmt := buttonTick_true_idle s.minuteBtn t hmv hmh
  obtain ⟨ch, cm, cs, lq, fl, wr, hb, mb, ur, rt⟩ := s
  simp only at hflag hbt hmt hhh hmh
  subst hflag
  simp [loopTick, handleTimeAdjustButtons, applyHourFire, applyMinuteFire, rtcWriteBack,
    hbt, hmt, hhh]

lemma loopTick_idleHigh_heldLow (s : SysState) (t : Nat)
    (hflag : s.timeLocallyUpdated = true)
    (hmv : s.minuteBtn.lastValue = false) (hmh : s.minuteBtn.beingHeld = true)
    (hrep : repeatDue t s.minuteBtn.nextAdvance = false)
    (hhv : s.hourBtn.lastValue = true) (hhh : s.hourBtn.beingHeld = false) :
    loopTick s t true false = (s, ⟨0, none, false, 0⟩) := by
  have hbt := buttonTick_false_heldNoRepeat s.minuteBtn t hmv hmh hrep
  have hht := buttonTick_true_idle s.hourBtn t hhv hhh
  obtain ⟨ch, cm, cs, lq, fl, wr, hb, mb, ur, rt⟩ := s
  simp only at hflag hbt hht hmh hhh
  subst hflag
  simp [loopTick, handleTimeAdjustButtons, applyHourFire, applyMinuteFire, rtcWriteBack,
    hbt, hht, hmh]

lemma loopTick_release_hour (s : SysState) (t : Nat)
    (hflag : s.timeLocallyUpdated = true)
    (hhv : s.hourBtn.lastValue = false) (hhh : s.hourBtn.beingHeld = true)
    (hmv : s.minuteBtn.lastValue = true) (hmh : s.minuteBtn.beingHeld = false) :
    loopTick s t true true =
      ({ s with hourBtn := ⟨t, true, true, s.hourBtn.nextAdvance⟩ }, ⟨0, none, false, 0⟩) := by
  have hbt := buttonTick_releaseLow s.hourBtn t hhv
  have hmt := buttonTick_true_idle s.minuteBtn t hmv hmh
  rw [hhh] at hbt
  obtain ⟨ch, cm, cs, lq, fl, wr, hb, mb, ur, rt⟩ := s
  simp only at hflag hbt hmt hhh hmh
  subst hflag
  simp [loopTick, handleTimeAdjustButtons, applyHourFire, applyMinuteFire, rtcWriteBack,
    hbt, hmt]

lemma loopTick_release_minute (s : SysState) (t : Nat)
    (hflag : s.timeLocallyUpdated = true)
    (hmv : s.minuteBtn.lastValue = false) (hmh : s.minuteBtn.beingHeld = true)
    (hhv : s.hourBtn.lastValue = true) (hhh : s.hourBtn.beingHeld = false) :
    loopTick s t true true =
      ({ s with minuteBtn := ⟨t, true, true, s.minuteBtn.nextAdvance⟩ }, ⟨0, none, false, 0⟩) := by
  have hbt := buttonTick_releaseLow s.minuteBtn t hmv
  have hht := buttonTick_true_idle s.hourBtn t hhv hhh
  rw [hmh] at hbt
  obtain ⟨ch, cm, cs, lq, fl, wr, hb, mb, ur, rt⟩ := s
  simp only at hflag hbt hht hhh hmh
  subst hflag
  simp [loopTick, handleTimeAdjustButtons, applyHourFire, applyMinuteFire, rtcWriteBack,
    hbt, hht]

lemma loopTick_pending_nowrite (s : SysState) (t : Nat)
    (hflag : s.timeLocallyUpdated = true)
    (hcond : ¬ (writeDue t s.updateRTCTime = true ∧
        (buttonTick s.hourBtn t true).st.beingHeld = false ∧
        (buttonTick s.minuteBtn t true).st.beingHeld = false)) :
    loopTick s t true true =
      ({ s with hourBtn := (buttonTick s.hourBtn t true).st,
                minuteBtn := (buttonTick s.minuteBtn t true).st },
       ⟨0, none, false, 0⟩) := by
  have h1 := (buttonTick_true_parts s.hourBtn t).1
  have h2 := (buttonTick_true_parts s.minuteBtn t).1
  simp only [loopTick, handleTimeAdjustButtons]
  rw [applyHourFire_notFired _ _ _ h1, applyMinuteFire_notFired _ _ _ h2,
    rtcWriteBack_blocked _ _ (by simpa [hflag] using hcond)]
  simp [h1, h2, hflag]

lemma loopTick_pending_write (s : SysState) (t : Nat)
    (hflag : s.timeLocallyUpdated = true)
    (hcond : writeDue t s.updateRTCTime = true ∧
        (buttonTick s.hourBtn t true).st.beingHeld = false ∧
        (buttonTick s.minuteBtn t true).st.beingHeld = false) :
    (loopTick s t true true).2.advances = 0 ∧
    (loopTick s t true true).2.wrote.isSome = true ∧
    (loopTick s t true true).1.timeLocallyUpdated = false := by
  have h1 := (buttonTick_true_parts s.hourBtn t).1
  have h2 := (buttonTick_true_parts s.minuteBtn t).1
  simp only [loopTick, handleTimeAdjustButtons]
  rw [applyHourFire_notFired _ _ _ h1, applyMinuteFire_notFired _ _ _ h2]
  simp only [rtcWriteBack]
  simp [h1, h2, hflag, hcond.1, hcond.2.1, hcond.2.2]
  try (split_ifs <;> simp)

lemma buttonTick_true_heldEq (s : ButtonState) (now : Nat) (hlv : s.lastValue = true) :
    (buttonTick s now true).st.beingHeld =
      if debounceSettled now s.lastChange then false else s.beingHeld := by
  obtain ⟨lc, lv, bh, na⟩ := s
  simp only at hlv
  subst hlv
  simp only [buttonTick, debounceUpdate]
  split_ifs <;> simp_all

lemma buttonTick_true_lastChange (s : ButtonState) (now : Nat) (hlv : s.lastValue = true) :
    (buttonTick s now true).st.lastChange = s.lastChange := by
  obtain ⟨lc, lv, bh, na⟩ := s
  simp only at hlv
  subst hlv
  simp only [buttonTick, debounceUpdate]
  split_ifs <;> simp_all

lemma writeback_run (B : List (Nat × Bool × Bool)) :
    ∀ (s : SysState) (c D : Nat),
    (∀ e ∈ B, e.2.1 = true ∧ e.2.2 = true) →
    List.Pairwise (fun a b : Nat × Bool × Bool => a.1 < b.1) B →
    (∀ e ∈ B, c < e.1 ∧ e.1 < 2 ^ 31) →
    c < 2 ^ 31 →
    s.timeLocallyUpdated = true →
    s.updateRTCTime = D →
    s.hourBtn.lastValue = true →
    s.minuteBtn.lastValue = true →
    (s.hourBtn.beingHeld = true → s.hourBtn.lastChange = c) →
    (s.minuteBtn.beingHeld = true → s.minuteBtn.lastChange = c) →
    ((s.hourBtn.beingHeld = false ∧ s.minuteBtn.beingHeld = false) →
      ∀ e ∈ B, c + 50 < e.1) →
    ((∀ e ∈ B, ¬ (D < e.1 ∧ c + 50 < e.1)) →
      (sysRun s B).1.timeLocallyUpdated = true ∧
      ∀ o ∈ (sysRun s B).2, o = ⟨0, none, false, 0⟩) ∧
    ((∃ e ∈ B, D < e.1 ∧ c + 50 < e.1) →
      ∃ (w : Nat) (hw : w < B.length) (hw2 : w < (sysRun s B).2.length),
        ((sysRun s B).2.get ⟨w, hw2⟩).wrote.isSome = true ∧
        D < (B.get ⟨w, hw⟩).1 ∧
        (∀ (j : Nat) (hj : j < (sysRun s B).2.length), j < w →
          (sysRun s B).2.get ⟨j, hj⟩ = ⟨0, none, false, 0⟩) ∧
        (∀ (j : Nat) (hj : j < (sysRun s B).2.length), w < j →
          ((sysRun s B).2.get ⟨j, hj⟩).wrote = none ∧
          ((sysRun s B).2.get ⟨j, hj⟩).advances = 0) ∧
        (sysRun s B).1.timeLocallyUpdated = false) := by
  induction B with
  | nil =>
    intro s c D _ _ _ _ hflag _ _ _ _ _ _
    refine ⟨fun _ => ⟨hflag, by simp [sysRun]⟩, fun hex => ?_⟩
    simp at hex
  | cons e rest ih =>
    intro s c D hlv hsort hgt hc hflag hD hhl hml hhc hmc hnh
    obtain ⟨t, hv, mv⟩ := e
    obtain ⟨hhv, hmv⟩ := hlv (t, hv, mv) (List.mem_cons_self _ _)
    simp only at hhv hmv
    subst hhv hmv
    obtain ⟨hct, ht31⟩ := hgt (t, true, true) (List.mem_cons_self _ _)
    -- the held flags after this tick's debounce
    have hsettled : debounceSettled t c = decide (c + 50 < t) := by
      have hsub : sub32 t c = t - c := by
        have := sub32_small t c (by omega) (by simp only [UINT32_MOD]; omega)
        omega
      simp only [debounceSettled, hsub, BUTTON_DEBOUNCE_MS]
      exact decide_eq_decide.mpr (by omega)
    have hHeq : s.hourBtn.beingHeld = true →
        ((buttonTick s.hourBtn t true).st.beingHeld = false ↔ c + 50 < t) := by
      intro hh
      rw [buttonTick_true_heldEq s.hourBtn t hhl, hhc hh, hsettled, hh]
      by_cases hlt : c + 50 < t <;> simp [hlt]
    have hMeq : s.minuteBtn.beingHeld = true →
        ((buttonTick s.minuteBtn t true).st.beingHeld = false ↔ c + 50 < t) := by
      intro hm
      rw [buttonTick_true_heldEq s.minuteBtn t hml, hmc hm, hsettled, hm]
      by_cases hlt : c + 50 < t <;> simp [hlt]
    have hHF : s.hourBtn.beingHeld = false →
        (buttonTick s.hourBtn t true).st.beingHeld = false := fun h =>
      buttonTick_notFired_heldFalse s.hourBtn t true (buttonTick_true_parts s.hourBtn t).1 h
    have hMF : s.minuteBtn.beingHeld = false →
        (buttonTick s.minuteBtn t true).st.beingHeld = false := fun h =>
      buttonTick_notFired_heldFalse s.minuteBtn t true (buttonTick_true_parts s.minuteBtn t).1 h
    -- the write fires at this tick exactly when both deadlines have passed
    have hcondIff : (writeDue t s.updateRTCTime = true ∧
        (buttonTick s.hourBtn t true).st.beingHeld = false ∧
        (buttonTick s.minuteBtn t true).st.beingHeld = false) ↔
        (D < t ∧ c + 50 < t) := by
      rw [hD]
      constructor
      · rintro ⟨hwd, hH, hM⟩
        refine ⟨by simpa [writeDue] using hwd, ?_⟩
        rcases Bool.eq_false_or_eq_true s.hourBtn.beingHeld with hh | hh
        · exact (hHeq hh).mp hH
        · rcases Bool.eq_false_or_eq_true s.minuteBtn.beingHeld with hm | hm
          · exact (hMeq hm).mp hM
          · exact hnh ⟨hh, hm⟩ (t, true, true) (List.mem_cons_self _ _)
      · rintro ⟨hwd, hlt⟩
        refine ⟨by simpa [writeDue] using hwd, ?_, ?_⟩
        · rcases Bool.eq_false_or_eq_true s.hourBtn.beingHeld with hh | hh
          · exact (hHeq hh).mpr hlt
          · exact hHF hh
        · rcases Bool.eq_false_or_eq_true s.minuteBtn.beingHeld with hm | hm
          · exact (hMeq hm).mpr hlt
          · exact hMF hm
    by_cases hW : D < t ∧ c + 50 < t
    · -- the write happens at this very tick
      have hstep := loopTick_pending_write s t hflag (hcondIff.mpr hW)
      have htail := sysRun_quiet_done rest (loopTick s t true true).1
        (fun e he => hlv e (List.mem_cons_of_mem _ he)) hstep.2.2
      constructor
      · intro hno
        exact absurd hW (hno (t, true, true) (List.mem_cons_self _ _))
      · intro _
        refine ⟨0, by simp, ?_, ?_, ?_, ?_, ?_, ?_⟩
        · simp only [sysRun, List.length_cons]
          omega
        · simp only [sysRun, List.get]
          exact hstep.2.1
        · simpa using hW.1
        · intro j hj hj0
          omega
        · intro j hj hj0
          simp only [sysRun, List.length_cons] at hj
          rcases Nat.exists_eq_succ_of_ne_zero (by omega : j ≠ 0) with ⟨j2, rfl⟩
          simp only [sysRun, List.get]
          have := htail.2 ((sysRun (loopTick s t true true).1 rest).2.get
            ⟨j2, by omega⟩) (List.get_mem _ _ _)
          exact ⟨this.2, this.1⟩
        · simp only [sysRun]
          exact htail.1
    · -- no write yet: the state invariant is preserved, recurse
      have hncond : ¬ (writeDue t s.updateRTCTime = true ∧
          (buttonTick s.hourBtn t true).st.beingHeld = false ∧
          (buttonTick s.minuteBtn t true).st.beingHeld = false) := fun h =>
        hW (hcondIff.mp h)
      have hstep := loopTick_pending_nowrite s t hflag hncond
      have hsort2 := List.pairwise_cons.mp hsort
      have hrec := ih (loopTick s t true true).1 c D
        (fun e he => hlv e (List.mem_cons_of_mem _ he))
        hsort2.2
        (fun e he => hgt e (List.mem_cons_of_mem _ he))
        hc
        (by rw [hstep]; exact hflag)
        (by rw [hstep]; exact hD)
        (by rw [hstep]; exact (buttonTick_true_parts s.hourBtn t).2.1)
        (by rw [hstep]; exact (buttonTick_true_parts s.minuteBtn t).2.1)
        (by
          rw [hstep]
          intro hh
          rw [buttonTick_true_lastChange s.hourBtn t hhl]
          exact hhc ((buttonTick_true_parts s.hourBtn t).2.2.2 hh))
        (by
          rw [hstep]
          intro hm
          rw [buttonTick_true_lastChange s.minuteBtn t hml]
          exact hmc ((buttonTick_true_parts s.minuteBtn t).2.2.2 hm))
        (by
          rw [hstep]
          rintro ⟨hH, hM⟩ e he
          rcases Bool.eq_false_or_eq_true s.hourBtn.beingHeld with hh | hh
          · have hlt := (hHeq hh).mp hH
            have := hsort2.1 e he
            omega
          · rcases Bool.eq_false_or_eq_true s.minuteBtn.beingHeld with hm | hm
            · have hlt := (hMeq hm).mp hM
              have := hsort2.1 e he
              omega
            · exact hnh ⟨hh, hm⟩ e (List.mem_cons_of_mem _ he))
      constructor
      · intro hno
        have hr := hrec.1 (fun e he => hno e (List.mem_cons_of_mem _ he))
        refine ⟨by simp only [sysRun]; exact hr.1, ?_⟩
        intro o ho
        simp only [sysRun, hstep] at ho
        rcases List.mem_cons.mp ho with rfl | ho
        · rfl
        · exact hr.2 o (by rw [hstep]; exact ho)
      · rintro ⟨e, he, hWe⟩
        have he2 : e ∈ rest := by
          rcases List.mem_cons.mp he with rfl | h2
          · exact absurd hWe hW
          · exact h2
        obtain ⟨w2, hw2a, hw2b, hwrote, hDw, hbefore, hafter, hfinal⟩ :=
          hrec.2 ⟨e, he2, hWe⟩
        refine ⟨w2 + 1, by simp only [List.length_cons]; omega, ?_, ?_, ?_, ?_, ?_, ?_⟩
        · simp only [sysRun, List.length_cons]
          omega
        · simp only [sysRun, List.get]
          exact hwrote
        · simp only [List.get]
          exact hDw
        · intro j hj hjw
          match j with
          | 0 =>
            simp only [sysRun, hstep, List.get]
          | j2 + 1 =>
            simp only [sysRun, List.length_cons] at hj
            simp only [sysRun, List.get]
            exact hbefore j2 (by omega) (by omega)
        · intro j hj hjw
          match j with
          | 0 => omega
          | j2 + 1 =>
            simp only [sysRun, List.length_cons] at hj
            simp only [sysRun, List.get]
            exact hafter j2 (by omega) (by omega)
        · simp only [sysRun]
          exact hfinal

/-- Claim C5: edit-then-silence.  The run is segmented as: a prefix `A` with
no advance events, the press tick `(tp, hlv, mlv)` (exactly one button low,
firing exactly one advance event), a held phase `P` (same levels, all before
the hold-repeat deadline), the release tick `(tq, true, true)`, and silence
`B` (both buttons high).  Then: no RTC write occurs before or at the press,
during the hold, at the release, or (in `B`) before the write tick; the
canonical time is never replaced by an RTC read while the edit is pending
(every output between the press and the write is exactly
`⟨0, none, false, 0⟩` — no `rtc.now()` call at all); the write to the
ClockSource happens exactly once, strictly later than
`BUTTON_INACTION_RTC_UPDATE_DELAY` (5000 ms) after the edit; and
`timeLocallyUpdated` is cleared by that write and stays clear. -/
theorem edit_then_silence
    (A P B : List (Nat × Bool × Bool)) (tp tq : Nat) (hlv mlv : Bool) (s0 : SysState)
    (h0f : s0.timeLocallyUpdated = false)
    (h0h : s0.hourBtn.beingHeld = false) (h0m : s0.minuteBtn.beingHeld = false)
    (hpress : (hlv = false ∧ mlv = true) ∨ (hlv = true ∧ mlv = false))
    (hA : ∀ o ∈ (sysRun s0 A).2, o.advances = 0)
    (hk : (loopTick (sysRun s0 A).1 tp hlv mlv).2.advances = 1)
    (hP : ∀ e ∈ P, e.2.1 = hlv ∧ e.2.2 = mlv ∧ e.1 < tp + BUTTON_HOLD_ACTION_REPEAT_PERIOD)
    (hsort : List.Pairwise (fun a b : Nat × Bool × Bool => a.1 < b.1)
      (A ++ (tp, hlv, mlv) :: (P ++ (tq, true, true) :: B)))
    (h31 : ∀ e ∈ A ++ (tp, hlv, mlv) :: (P ++ (tq, true, true) :: B), e.1 < 2 ^ 31)
    (hB : ∀ e ∈ B, e.2.1 = true ∧ e.2.2 = true)
    (hreach : ∃ e ∈ B, tp + BUTTON_INACTION_RTC_UPDATE_DELAY < e.1 ∧ tq + 50 < e.1) :
    (∀ o ∈ (sysRun s0 A).2, o.wrote = none) ∧
    (loopTick (sysRun s0 A).1 tp hlv mlv).2 = ⟨1, none, false, 0⟩ ∧
    (∀ o ∈ (sysRun (loopTick (sysRun s0 A).1 tp hlv mlv).1 P).2,
      o = ⟨0, none, false, 0⟩) ∧
    (loopTick (sysRun (loopTick (sysRun s0 A).1 tp hlv mlv).1 P).1 tq true true).2 =
      ⟨0, none, false, 0⟩ ∧
    (∃ (w : Nat) (hw : w < B.length)
      (hw2 : w < (sysRun (loopTick (sysRun (loopTick (sysRun s0 A).1 tp hlv mlv).1 P).1
          tq true true).1 B).2.length),
      ((sysRun (loopTick (sysRun (loopTick (sysRun s0 A).1 tp hlv mlv).1 P).1
          tq true true).1 B).2.get ⟨w, hw2⟩).wrote.isSome = true ∧
      tp + BUTTON_INACTION_RTC_UPDATE_DELAY < (B.get ⟨w, hw⟩).1 ∧
      (∀ (j : Nat) (hj : j < (sysRun (loopTick (sysRun (loopTick (sysRun s0 A).1 tp hlv mlv).1
            P).1 tq true true).1 B).2.length), j < w →
        (sysRun (loopTick (sysRun (loopTick (sysRun s0 A).1 tp hlv mlv).1 P).1
          tq true true).1 B).2.get ⟨j, hj⟩ = ⟨0, none, false, 0⟩) ∧
      (∀ (j : Nat) (hj : j < (sysRun (loopTick (sysRun (loopTick (sysRun s0 A).1 tp hlv mlv).1
            P).1 tq true true).1 B).2.length), w < j →
        ((sysRun (loopTick (sysRun (loopTick (sysRun s0 A).1 tp hlv mlv).1 P).1
          tq true true).1 B).2.get ⟨j, hj⟩).wrote = none ∧
        ((sysRun (loopTick (sysRun (loopTick (sysRun s0 A).1 tp hlv mlv).1 P).1
          tq true true).1 B).2.get ⟨j, hj⟩).advances = 0) ∧
      (sysRun (loopTick (sysRun (loopTick (sysRun s0 A).1 tp hlv mlv).1 P).1
        tq true true).1 B).1.timeLocallyUpdated = false) := by
  -- shared arithmetic and ordering facts
  have htp31 : tp < 2 ^ 31 := by
    have := h31 (tp, hlv, mlv) (by simp)
    simpa using this
  have htq31 : tq < 2 ^ 31 := by
    have := h31 (tq, true, true) (by simp)
    simpa using this
  have hadd5 : add32 tp BUTTON_INACTION_RTC_UPDATE_DELAY =
      tp + BUTTON_INACTION_RTC_UPDATE_DELAY := by
    apply add32_small
    simp only [UINT32_MOD, BUTTON_INACTION_RTC_UPDATE_DELAY]
    omega
  have hadd1 : add32 tp BUTTON_HOLD_ACTION_REPEAT_PERIOD =
      tp + BUTTON_HOLD_ACTION_REPEAT_PERIOD := by
    apply add32_small
    simp only [UINT32_MOD, BUTTON_HOLD_ACTION_REPEAT_PERIOD]
    omega
  have hs1 := (List.pairwise_append.mp hsort).2.1
  have hs2 := (List.pairwise_cons.mp hs1).2
  have hs3 := (List.pairwise_append.mp hs2).2.1
  have hBgt : ∀ e ∈ B, tq < e.1 := fun e he => (List.pairwise_cons.mp hs3).1 e he
  have hBpw : List.Pairwise (fun a b : Nat × Bool × Bool => a.1 < b.1) B :=
    (List.pairwise_cons.mp hs3).2
  have hB31 : ∀ e ∈ B, e.1 < 2 ^ 31 := by
    intro e he
    exact h31 e (by simp [List.mem_append, he])
  have hAres := sysRun_quiet_idle A s0 h0f h0h h0m hA
  rcases hpress with ⟨rfl, rfl⟩ | ⟨rfl, rfl⟩
  · -- the hour button is the one pressed
    have hmf := (buttonTick_true_parts (sysRun s0 A).1.minuteBtn tp).1
    have hhf : (buttonTick (sysRun s0 A).1.hourBtn tp false).fired = true := by
      have h := hk
      rw [loopTick_out_advances, hmf] at h
      rcases Bool.eq_false_or_eq_true (buttonTick (sysRun s0 A).1.hourBtn tp false).fired
        with h1 | h1
      · exact h1
      · rw [h1] at h
        simp at h
    obtain ⟨hko, hkf, hku, hkb, hkml, hkmh⟩ :=
      loopTick_press_hour (sysRun s0 A).1 tp hAres.1 hAres.2.1 hAres.2.2.1 hhf
    have hPrun := sysRun_const P (loopTick (sysRun s0 A).1 tp false true).1 (by
      intro e he
      obtain ⟨he1, he2, he3⟩ := hP e he
      rw [he1, he2]
      refine loopTick_heldLow_idleHigh _ _ hkf ?_ ?_ ?_ hkml hkmh
      · rw [hkb]
      · rw [hkb]
      · rw [hkb]
        simp only [repeatDue, hadd1, decide_eq_false_iff_not, not_le]
        simp only [BUTTON_HOLD_ACTION_REPEAT_PERIOD] at he3 ⊢
        omega)
    have hqrel := loopTick_release_hour (sysRun (loopTick (sysRun s0 A).1 tp false true).1 P).1
      tq (by rw [hPrun.1]; exact hkf) (by rw [hPrun.1, hkb]) (by rw [hPrun.1, hkb])
      (by rw [hPrun.1]; exact hkml) (by rw [hPrun.1]; exact hkmh)
    have hqs : (loopTick (sysRun (loopTick (sysRun s0 A).1 tp false true).1 P).1
        tq true true).1 =
        { (loopTick (sysRun s0 A).1 tp false true).1 with
          hourBtn := ⟨tq, true, true,
            (loopTick (sysRun s0 A).1 tp false true).1.hourBtn.nextAdvance⟩ } := by
      rw [hqrel, hPrun.1]
    have hwb := writeback_run B
      ({ (loopTick (sysRun s0 A).1 tp false true).1 with
         hourBtn := ⟨tq, true, true,
           (loopTick (sysRun s0 A).1 tp false true).1.hourBtn.nextAdvance⟩ })
      tq (add32 tp BUTTON_INACTION_RTC_UPDATE_DELAY)
      hB hBpw (fun e he => ⟨hBgt e he, hB31 e he⟩) htq31
      hkf hku rfl (by exact hkml) (fun _ => rfl)
      (fun hm => absurd hm (by rw [hkmh]; simp))
      (by rintro ⟨hH, _⟩; simp at hH)
    have hex : ∃ e ∈ B, add32 tp BUTTON_INACTION_RTC_UPDATE_DELAY < e.1 ∧ tq + 50 < e.1 := by
      obtain ⟨e, he, h1, h2⟩ := hreach
      exact ⟨e, he, by rw [hadd5]; exact h1, h2⟩
    obtain ⟨w, hw, hw2, hwrote, hDw, hbefore, hafter, hfinal⟩ := hwb.2 hex
    refine ⟨hAres.2.2.2, hko, hPrun.2, by rw [hqrel], ?_⟩
    rw [hqs]
    refine ⟨w, hw, hw2, hwrote, by rw [← hadd5]; exact hDw, hbefore, hafter, hfinal⟩
  · -- the minute button is the one pressed
    have hhfq := (buttonTick_true_parts (sysRun s0 A).1.hourBtn tp).1
    have hmfq : (buttonTick (sysRun s0 A).1.minuteBtn tp false).fired = true := by
      have h := hk
      rw [loopTick_out_advances, hhfq] at h
      rcases Bool.eq_false_or_eq_true (buttonTick (sysRun s0 A).1.minuteBtn tp false).fired
        with h1 | h1
      · exact h1
      · rw [h1] at h
        simp at h
    obtain ⟨hko, hkf, hku, hkb, hkhl, hkhh⟩ :=
      loopTick_press_minute (sysRun s0 A).1 tp hAres.1 hAres.2.1 hAres.2.2.1 hmfq
    have hPrun := sysRun_const P (loopTick (sysRun s0 A).1 tp true false).1 (by
      intro e he
      obtain ⟨he1, he2, he3⟩ := hP e he
      rw [he1, he2]
      refine loopTick_idleHigh_heldLow _ _ hkf ?_ ?_ ?_ hkhl hkhh
      · rw [hkb]
      · rw [hkb]
      · rw [hkb]
        simp only [repeatDue, hadd1, decide_eq_false_iff_not, not_le]
        simp only [BUTTON_HOLD_ACTION_REPEAT_PERIOD] at he3 ⊢
        omega)
    have hqrel := loopTick_release_minute (sysRun (loopTick (sysRun s0 A).1 tp true false).1 P).1
      tq (by rw [hPrun.1]; exact hkf) (by rw [hPrun.1, hkb]) (by rw [hPrun.1, hkb])
      (by rw [hPrun.1]; exact hkhl) (by rw [hPrun.1]; exact hkhh)
    have hqs : (loopTick (sysRun (loopTick (sysRun s0 A).1 tp true false).1 P).1
        tq true true).1 =
        { (loopTick (sysRun s0 A).1 tp true false).1 with
          minuteBtn := ⟨tq, true, true,
            (loopTick (sysRun s0 A).1 tp true false).1.minuteBtn.nextAdvance⟩ } := by
      rw [hqrel, hPrun.1]
    have hwb := writeback_run B
      ({ (loopTick (sysRun s0 A).1 tp true false).1 with
         minuteBtn := ⟨tq, true, true,
           (loopTick (sysRun s0 A).1 tp true false).1.minuteBtn.nextAdvance⟩ })
      tq (add32 tp BUTTON_INACTION_RTC_UPDATE_DELAY)
      hB hBpw (fun e he => ⟨hBgt e he, hB31 e he⟩) htq31
      hkf hku (by exact hkhl) rfl
      (fun hm => absurd hm (by rw [hkhh]; simp))
      (fun _ => rfl)
      (by rintro ⟨_, hM⟩; simp at hM)
    have hex : ∃ e ∈ B, add32 tp BUTTON_INACTION_RTC_UPDATE_DELAY < e.1 ∧ tq + 50 < e.1 := by
      obtain ⟨e, he, h1, h2⟩ := hreach
      exact ⟨e, he, by rw [hadd5]; exact h1, h2⟩
    obtain ⟨w, hw, hw2, hwrote, hDw, hbefore, hafter, hfinal⟩ := hwb.2 hex
    refine ⟨hAres.2.2.2, hko, hPrun.2, by rw [hqrel], ?_⟩
    rw [hqs]
    refine ⟨w, hw, hw2, hwrote, by rw [← hadd5]; exact hDw, hbefore, hafter, hfinal⟩

/-- Witness for C5: the theorem applied to the concrete five-tick trace
(press the hour button at 151 ms, release at 200 ms, write fires at the
5400 ms tick). -/
theorem edit_then_silence_witness :
    (W5s0.timeLocallyUpdated = false ∧
     List.Pairwise (fun a b : Nat × Bool × Bool => a.1 < b.1)
       (W5A ++ (151, false, true) :: (W5P ++ (200, true, true) :: W5B)) ∧
     (loopTick (sysRun W5s0 W5A).1 151 false true).2.advances = 1 ∧
     (∃ e ∈ W5B, 151 + BUTTON_INACTION_RTC_UPDATE_DELAY < e.1 ∧ 200 + 50 < e.1)) ∧
    (
    (∀ o ∈ (sysRun W5s0 W5A).2, o.wrote = none) ∧
    (loopTick (sysRun W5s0 W5A).1 151 false true).2 = ⟨1, none, false, 0⟩ ∧
    (∀ o ∈ (sysRun (loopTick (sysRun W5s0 W5A).1 151 false true).1 W5P).2,
      o = ⟨0, none, false, 0⟩) ∧
    (loopTick (sysRun (loopTick (sysRun W5s0 W5A).1 151 false true).1 W5P).1 200 true true).2 =
      ⟨0, none, false, 0⟩ ∧
    (∃ (w : Nat) (hw : w < W5B.length)
      (hw2 : w < (sysRun (loopTick (sysRun (loopTick (sysRun W5s0 W5A).1 151 false true).1 W5P).1
          200 true true).1 W5B).2.length),
      ((sysRun (loopTick (sysRun (loopTick (sysRun W5s0 W5A).1 151 false true).1 W5P).1
          200 true true).1 W5B).2.get ⟨w, hw2⟩).wrote.isSome = true ∧
      151 + BUTTON_INACTION_RTC_UPDATE_DELAY < (W5B.get ⟨w, hw⟩).1 ∧
      (∀ (j : Nat) (hj : j < (sysRun (loopTick (sysRun (loopTick (sysRun W5s0 W5A).1 151 false true).1
            W5P).1 200 true true).1 W5B).2.length), j < w →
        (sysRun (loopTick (sysRun (loopTick (sysRun W5s0 W5A).1 151 false true).1 W5P).1
          200 true true).1 W5B).2.get ⟨j, hj⟩ = ⟨0, none, false, 0⟩) ∧
      (∀ (j : Nat) (hj : j < (sysRun (loopTick (sysRun (loopTick (sysRun W5s0 W5A).1 151 false true).1
            W5P).1 200 true true).1 W5B).2.length), w < j →
        ((sysRun (loopTick (sysRun (loopTick (sysRun W5s0 W5A).1 151 false true).1 W5P).1
          200 true true).1 W5B).2.get ⟨j, hj⟩).wrote = none ∧
        ((sysRun (loopTick (sysRun (loopTick (sysRun W5s0 W5A).1 151 false true).1 W5P).1
          200 true true).1 W5B).2.get ⟨j, hj⟩).advances = 0) ∧
      (sysRun (loopTick (sysRun (loopTick (sysRun W5s0 W5A).1 151 false true).1 W5P).1
        200 true true).1 W5B).1.timeLocallyUpdated = false)
    ) :=
  ⟨⟨by decide, by decide, by decide, by decide⟩,
   edit_then_silence W5A W5P W5B 151 200 false true W5s0 (by decide) (by decide) (by decide)
     (Or.inl ⟨rfl, rfl⟩) (by decide) (by decide) (by decide) (by decide) (by decide)
     (by decide) (by decide)⟩

end WordClock
